import Mathlib

set_option linter.unusedVariables false

/-!
Verification development for the ModerIA Nillion-SecretVault action provider.

The development embeds the TypeScript sources shallowly:

* a tree-valued model of JavaScript records (`JVal`, `JRecord`) used for the
  value-level behaviour of `prepareDataForEncryption` and the record builders
  inside the create actions;
* a heap model (`Heap`, `HVal`) used for the reference/mutation behaviour of
  `prepareDataForEncryption` (JS objects are references, and the nested branch
  of the source function writes through a shared reference);
* a model of the zod schemas of `schemas.ts` (`.object(...).strip()` parsing);
* a model of the action surface of `nillionSecretVaultActionProvider.ts` as
  explicit state passing over `ProviderState`, with the behaviour of the
  external SecretVault SDK supplied by an `Env` of oracles.
-/

/-- Model of a JavaScript value as stored in the records this module handles:
primitives plus objects with one further level of objects below them. -/
inductive JVal where
  | str : String → JVal
  | num : Int → JVal
  | bool : Bool → JVal
  | null : JVal
  | obj : List (String × JVal) → JVal

/-- A JavaScript record: an ordered association of field names to values. -/
abbrev JRecord := List (String × JVal)

/-- Property read `r[k]` on a record (first binding wins; JS objects have
unique keys, so on images of real objects this is exact). -/
def lookupR {α : Type} : List (String × α) → String → Option α
  | [], _ => none
  | (k, v) :: rest, key => if key = k then some v else lookupR rest key

/-- Property write `r[k] = v`: replaces the first binding of `k`, appends a
binding if `k` is absent (JS property-assignment semantics on key order). -/
def setKey {α : Type} : List (String × α) → String → α → List (String × α)
  | [], key, v => [(key, v)]
  | (k, w) :: rest, key, v =>
    if key = k then (key, v) :: rest else (k, w) :: setKey rest key v

/-- JavaScript truthiness of a modelled value (`if (x)`): empty string, zero,
`false` and `null` are falsy; every object is truthy. -/
def truthy : JVal → Bool
  | .str s => if s = "" then false else true
  | .num n => if n = 0 then false else true
  | .bool b => b
  | .null => false
  | .obj _ => true

/-- The encryption marker wrapper built by the source: a one-key object
holding the original value under the key percent-allot. -/
def wrapAllot (v : JVal) : JVal := .obj [("%allot", v)]

/-- Property read on a value: only objects have (modelled) properties. -/
def getProp : JVal → String → Option JVal
  | .obj fs, k => lookupR fs k
  | _, _ => none

/-- Property write on a value; non-objects are returned unchanged (the source
never reaches that case because it reads the property first). -/
def setProp : JVal → String → JVal → JVal
  | .obj fs, k, v => .obj (setKey fs k v)
  | t, _, _ => t

/-- Model of the JavaScript `field.split('.')`: cut the string at every dot.
Defined by structural recursion over the character list so that it computes
by `rfl` and `decide`. -/
def splitDotAux : List Char → List Char → List String
  | [], acc => [String.mk acc.reverse]
  | c :: rest, acc =>
    if c = '.' then String.mk acc.reverse :: splitDotAux rest []
    else splitDotAux rest (c :: acc)

/-- JavaScript `field.split('.')`.  It returns a singleton exactly when the
field contains no dot, so `field.includes('.')` is the same test as this list
having at least two entries. -/
def splitDot (s : String) : List String := splitDotAux s.data []

/-- One iteration of the loop body of `prepareDataForEncryption`
(`nillionSecretVaultActionProvider.ts`).  The source tests
`field.includes('.')` and then destructures `field.split('.')` into its first
two components; matching on `splitDot` expresses exactly that, since it
yields a singleton precisely when the field has no dot. -/
def applyField (r : JRecord) (field : String) : JRecord :=
  match splitDot field with
  | parent :: child :: _ =>
    match lookupR r parent with
    | some pv =>
      if truthy pv then
        match getProp pv child with
        | some cv =>
          if truthy cv then setKey r parent (setProp pv child (wrapAllot cv)) else r
        | none => r
      else r
    | none => r
  | _ =>
    match lookupR r field with
    | some v => if truthy v then setKey r field (wrapAllot v) else r
    | none => r

/-- Value-level model of `prepareDataForEncryption`: shallow copy of `data`
followed by the field loop.  In this tree model the shallow copy is the
identity; the reference-level behaviour is modelled separately on `Heap`. -/
def prepareDataForEncryption (data : JRecord) (encryptedFields : List String) : JRecord :=
  encryptedFields.foldl applyField data

/-- The effective target of a field path: the source uses the first two
components of `split('.')`, so a path is interpreted as a top-level key or as
a (parent, child) pair. -/
def fieldTarget (f : String) : String × Option String :=
  match splitDot f with
  | parent :: child :: _ => (parent, some child)
  | _ => (f, none)

/-- Read a record at an effective target: a top-level key or a child key
inside the value of a top-level key. -/
def pathLookupT (r : JRecord) : String × Option String → Option JVal
  | (p, none) => lookupR r p
  | (p, some c) =>
    match lookupR r p with
    | some pv => getProp pv c
    | none => none

/-- Wrap a value in the encryption marker exactly when it is truthy; this is
what one loop iteration of the source does to the value sitting at its
target. -/
def wrapIfTruthy (v : JVal) : JVal := if truthy v then wrapAllot v else v

/-- Target `t` can affect the record at target `p`: they share the top-level
key and are not two nested targets with different children. -/
def targetTouches (t p : String × Option String) : Prop :=
  t.1 = p.1 ∧ (t.2 = none ∨ p.2 = none ∨ t.2 = p.2)

instance (t p : String × Option String) : Decidable (targetTouches t p) := by
  unfold targetTouches
  infer_instance

/-- Heap-model value: a JavaScript primitive or a reference to a heap object.
This model captures that JS objects are passed by reference, which the
tree model cannot express. -/
inductive HVal where
  | vstr : String → HVal
  | vnum : Int → HVal
  | vbool : Bool → HVal
  | vnull : HVal
  | vref : Nat → HVal

/-- A JavaScript heap: objects addressed by allocation index. -/
structure Heap where
  objs : List (List (String × HVal))

/-- Read the object stored at an address. -/
def Heap.getObj (h : Heap) (a : Nat) : Option (List (String × HVal)) := h.objs[a]?

/-- Overwrite the object stored at an address. -/
def Heap.setObj (h : Heap) (a : Nat) (o : List (String × HVal)) : Heap :=
  ⟨h.objs.set a o⟩

/-- Allocate a fresh object, returning the new heap and its address. -/
def Heap.alloc (h : Heap) (o : List (String × HVal)) : Heap × Nat :=
  (⟨h.objs ++ [o]⟩, h.objs.length)

/-- Read field `k` of the object at address `a`. -/
def lookupObjField (h : Heap) (a : Nat) (k : String) : Option HVal :=
  (h.getObj a).bind fun fs => lookupR fs k

/-- Write field `k` of the object at address `a` in place (JS property
assignment through a reference). -/
def setFieldInObj (h : Heap) (a : Nat) (k : String) (v : HVal) : Heap :=
  match h.getObj a with
  | some fs => h.setObj a (setKey fs k v)
  | none => h

/-- JavaScript truthiness of a heap-model value; references (objects) are
always truthy. -/
def truthyH : HVal → Bool
  | .vstr s => if s = "" then false else true
  | .vnum n => if n = 0 then false else true
  | .vbool b => b
  | .vnull => false
  | .vref _ => true

/-- Property read through a value: follows a reference into the heap;
primitives have no (modelled) properties. -/
def getPropH (h : Heap) (v : HVal) (k : String) : Option HVal :=
  match v with
  | .vref a => lookupObjField h a k
  | _ => none

/-- Heap-model loop body of `prepareDataForEncryption`.  On a nested path the
source executes `result[parent][child] = { '%allot': ... }`: it writes through
the reference stored at `result[parent]`, mutating the object that the INPUT
record still points to, because `{ ...data }` copied only the top level. -/
def applyFieldHeap (h : Heap) (res : Nat) (field : String) : Heap :=
  match splitDot field with
  | parent :: child :: _ =>
    match lookupObjField h res parent with
    | some pv =>
      if truthyH pv then
        match getPropH h pv child with
        | some cv =>
          if truthyH cv then
            match pv with
            | .vref pa =>
              let al := h.alloc [("%allot", cv)]
              setFieldInObj al.1 pa child (.vref al.2)
            | _ => h
          else h
        | none => h
      else h
    | none => h
  | _ =>
    match lookupObjField h res field with
    | some v =>
      if truthyH v then
        let al := h.alloc [("%allot", v)]
        setFieldInObj al.1 res field (.vref al.2)
      else h
    | none => h

/-- Heap-model `prepareDataForEncryption`: `const result = { ...data }` is a
fresh object whose bindings share the references of `data`, followed by the
field loop mutating through `result`. -/
def prepareDataForEncryptionHeap (h : Heap) (dataAddr : Nat) (fields : List String) :
    Heap × Nat :=
  let dataObj := (h.getObj dataAddr).getD []
  let al := h.alloc dataObj
  (fields.foldl (fun hh f => applyFieldHeap hh al.2 f) al.1, al.2)

/-- Hexadecimal digit character (lower case), as produced by the uuid
library's byte-to-hex table. -/
def hexChar (n : Nat) : Char :=
  if n < 10 then Char.ofNat (48 + n) else Char.ofNat (87 + n % 16)

/-- Two-character lower-case hex rendering of a byte. -/
def byteHex (b : Nat) : String := String.mk [hexChar (b / 16 % 16), hexChar (b % 16)]

/-- Model of the external uuid library's `v4()` generator over an abstract
source of 16 random bytes: the RFC 4122 version-4 layout
8-4-4-4-12 hex digits with the version and variant bits forced. -/
def uuidv4 (b : Fin 16 → Nat) : String :=
  let v := fun i => b i % 256
  let b6 := 64 + v 6 % 16
  let b8 := 128 + v 8 % 64
  byteHex (v 0) ++ byteHex (v 1) ++ byteHex (v 2) ++ byteHex (v 3) ++ "-" ++
  byteHex (v 4) ++ byteHex (v 5) ++ "-" ++ byteHex b6 ++ byteHex (v 7) ++ "-" ++
  byteHex b8 ++ byteHex (v 9) ++ "-" ++ byteHex (v 10) ++ byteHex (v 11) ++
  byteHex (v 12) ++ byteHex (v 13) ++ byteHex (v 14) ++ byteHex (v 15)

/-- A flat JSON literal: the mock payloads and formatted query rows this
module serializes hold only strings and numbers. -/
inductive JLit where
  | s : String → JLit
  | n : Int → JLit

/-- JSON string escaping of one character, as performed by
`JSON.stringify`. -/
def jsonEscapeChar (c : Char) : String :=
  if c = Char.ofNat 34 then String.mk [Char.ofNat 92, Char.ofNat 34]
  else if c = Char.ofNat 92 then String.mk [Char.ofNat 92, Char.ofNat 92]
  else if c = Char.ofNat 8 then String.mk [Char.ofNat 92, Char.ofNat 98]
  else if c = Char.ofNat 9 then String.mk [Char.ofNat 92, Char.ofNat 116]
  else if c = Char.ofNat 10 then String.mk [Char.ofNat 92, Char.ofNat 110]
  else if c = Char.ofNat 12 then String.mk [Char.ofNat 92, Char.ofNat 102]
  else if c = Char.ofNat 13 then String.mk [Char.ofNat 92, Char.ofNat 114]
  else if c.toNat < 32 then
    String.mk [Char.ofNat 92, Char.ofNat 117] ++ "00" ++ byteHex c.toNat
  else String.mk [c]

/-- JSON escaping of a string body (without the surrounding quotes). -/
def jsonEscape (s : String) : String := String.join (s.data.map jsonEscapeChar)

/-- Double-quote character as a string, used when assembling JSON text. -/
def dq : String := String.mk [Char.ofNat 34]

/-- Rendering of a flat JSON literal as `JSON.stringify` renders it. -/
def jsonLit : JLit → String
  | .s s => dq ++ jsonEscape s ++ dq
  | .n n => toString n

/-- Field lines of `JSON.stringify(obj, null, 2)` for a flat object, at the
given indentation, separated by comma-newline. -/
def jsonFlatFields (ind : String) : List (String × JLit) → String
  | [] => ""
  | [(k, v)] => ind ++ dq ++ jsonEscape k ++ dq ++ ": " ++ jsonLit v
  | (k, v) :: rest =>
    ind ++ dq ++ jsonEscape k ++ dq ++ ": " ++ jsonLit v ++ ",\n"
      ++ jsonFlatFields ind rest

/-- Output of `JSON.stringify(obj, null, 2)` for a flat object whose own
lines start at indentation `ind`. -/
def jsonFlatObj (ind : String) (fs : List (String × JLit)) : String :=
  match fs with
  | [] => "\x7b\x7d"
  | _ => "\x7b\n" ++ jsonFlatFields (ind ++ "  ") fs ++ "\n" ++ ind ++ "\x7d"

/-- Output of `JSON.stringify(arr, null, 2)` for an array of flat objects. -/
def jsonFlatArr (l : List (List (String × JLit))) : String :=
  match l with
  | [] => "[]"
  | _ =>
    "[\n" ++ String.intercalate ",\n" (l.map fun o => "  " ++ jsonFlatObj "  " o)
      ++ "\n]"

/-- One field of a zod object schema: whether it is `.optional()` and its
value parser, which returns the (possibly rewritten) validated value. -/
structure ZodField where
  optional : Bool
  parse : JVal → Option JVal

/-- A zod object schema is its ordered shape. -/
abbrev ZodObject := List (String × ZodField)

/-- Model of `z.object(shape).strip().parse`: each declared key is validated
(required keys must be present); keys not named in the shape are NOT
rejected — they are silently dropped from the parsed result, which contains
only declared keys, in shape order. -/
def parseStrip (schema : ZodObject) (input : JRecord) : Option JRecord :=
  match schema with
  | [] => some []
  | (k, fld) :: rest =>
    match lookupR input k with
    | none => if fld.optional then parseStrip rest input else none
    | some v =>
      match fld.parse v with
      | none => none
      | some v2 => (parseStrip rest input).map fun r => (k, v2) :: r

/-- Model of `z.string()`. -/
def zString : JVal → Option JVal
  | .str s => some (.str s)
  | _ => none

/-- Model of a `z.number()` with an extra refinement such as `.min(15)` or
`.positive()`. -/
def zNumber (check : Int → Bool) : JVal → Option JVal
  | .num n => if check n then some (.num n) else none
  | _ => none

/-- Model of a nested `z.object(shape)` (zod objects strip unknown keys by
default, so nested objects parse with the same strip semantics). -/
def zObjectField (schema : ZodObject) : JVal → Option JVal
  | .obj fs => (parseStrip schema fs).map .obj
  | _ => none

/-- Shape of `service_details` inside `CreateServiceListingSchema`
(`schemas.ts`). -/
def serviceDetailsShape : ZodObject :=
  [("title", ⟨false, zString⟩),
   ("description", ⟨false, zString⟩),
   ("duration_minutes", ⟨false, zNumber (fun n => 15 ≤ n)⟩)]

/-- Shape of `availability` inside `CreateServiceListingSchema`. -/
def availabilityShape : ZodObject :=
  [("date", ⟨false, zString⟩),
   ("start_time", ⟨false, zString⟩),
   ("end_time", ⟨false, zString⟩),
   ("timezone", ⟨false, zString⟩)]

/-- Shape of `price` inside `CreateServiceListingSchema`. -/
def priceShape : ZodObject :=
  [("amount", ⟨false, zNumber (fun n => 0 < n)⟩),
   ("currency", ⟨false, zString⟩)]

/-- Model of `CreateServiceListingSchema` (`schemas.ts`): a `.strip()` object
schema over the listing input fields. -/
def CreateServiceListingSchema : ZodObject :=
  [("provider_name", ⟨false, zString⟩),
   ("provider_id", ⟨false, zString⟩),
   ("service_type", ⟨false, zString⟩),
   ("service_details", ⟨false, zObjectField serviceDetailsShape⟩),
   ("availability", ⟨false, zObjectField availabilityShape⟩),
   ("price", ⟨false, zObjectField priceShape⟩),
   ("contact_info", ⟨false, zString⟩)]

/-- Model of `GetBookingDetailsSchema` (`schemas.ts`). -/
def GetBookingDetailsSchema : ZodObject :=
  [("booking_id", ⟨false, zString⟩)]

/-- Model of `CreateBookingSchema` (`schemas.ts`). -/
def CreateBookingSchema : ZodObject :=
  [("service_id", ⟨false, zString⟩),
   ("customer_id", ⟨false, zString⟩),
   ("customer_name", ⟨false, zString⟩),
   ("meeting_link", ⟨true, zString⟩)]

/-- A SecretVault node configuration (`constants.ts` NODES_CONFIG entry). -/
structure NodeConfig where
  url : String
  did : String

/-- Organization credentials (`constants.ts` DEFAULT_CREDENTIALS). -/
structure OrgCredentials where
  secretKey : String
  orgDid : String

/-- The three remote schema kinds accepted by the provider. -/
inductive SchemaKind where
  | SERVICE_LISTING
  | BOOKING
  | FEEDBACK

/-- The module-level mutable `SCHEMA_IDS` object of `constants.ts`. -/
structure SchemaIds where
  serviceListing : String
  booking : String
  feedback : String

/-- Read `SCHEMA_IDS[schemaType]`. -/
def SchemaIds.get : SchemaIds → SchemaKind → String
  | ids, .SERVICE_LISTING => ids.serviceListing
  | ids, .BOOKING => ids.booking
  | ids, .FEEDBACK => ids.feedback

/-- Write `SCHEMA_IDS[schemaType] = id`. -/
def SchemaIds.setId : SchemaIds → SchemaKind → String → SchemaIds
  | ids, .SERVICE_LISTING, v => { ids with serviceListing := v }
  | ids, .BOOKING, v => { ids with booking := v }
  | ids, .FEEDBACK, v => { ids with feedback := v }

/-- The spelling of a schema kind used in messages (`${schemaType}`). -/
def schemaKindName : SchemaKind → String
  | .SERVICE_LISTING => "SERVICE_LISTING"
  | .BOOKING => "BOOKING"
  | .FEEDBACK => "FEEDBACK"

/-- Mutable state of `NillionSecretVaultActionProvider` plus the module-level
`SCHEMA_IDS`: `initialized`, whether `secretVaultWrapper` is non-null, the
current node list and credentials, and the schema identifiers. -/
structure ProviderState where
  initialized : Bool
  hasWrapper : Bool
  nodes : List NodeConfig
  credentials : OrgCredentials
  schemaIds : SchemaIds

/-- The three JSON schema documents of `constants.ts`, abstract here: their
content is only ever forwarded verbatim to the external service. -/
inductive SchemaDoc where
  | serviceListingSchemaDoc
  | bookingSchemaDoc
  | feedbackSchemaDoc

/-- Model of `getSchemaByType`.  The source's `InvalidDataError` default
branch is unreachable because zod validated the kind against an enum. -/
def getSchemaByType : SchemaKind → SchemaDoc
  | .SERVICE_LISTING => .serviceListingSchemaDoc
  | .BOOKING => .bookingSchemaDoc
  | .FEEDBACK => .feedbackSchemaDoc

/-- An exception crossing an action's try/catch: either one of this module's
`NillionSecretVaultError` kinds (carrying its formatted message) or any other
JavaScript error. -/
inductive VaultError where
  | sv : String → VaultError
  | js : String → VaultError

/-- A filter value used by `queryServiceListings`: a string equality filter
or a `$lte` bound. -/
inductive FilterVal where
  | fstr : String → FilterVal
  | flte : Int → FilterVal

/-- A service-listing record as returned (schema-valid) by the external
service, in the fields `queryServiceListings` projects. -/
structure ListingView where
  rid : String
  title : String
  description : String
  service_type : String
  duration_minutes : Int
  date : String
  start_time : String
  end_time : String
  timezone : String
  price_amount : Int
  price_currency : String

/-- Behaviour of the external SecretVault SDK during one action invocation:
`initResult` is `none` when `init()` succeeds for the given configuration,
otherwise the thrown error's message; the other oracles model
`createSchema`, `writeToNodes` (returning `result.data.created`) and
`readFromNodes`, failing with an arbitrary (non-`NillionSecretVaultError`)
error message. -/
structure Env where
  initResult : List NodeConfig → OrgCredentials → Option String
  createSchemaResult : SchemaDoc → String → Except String String
  writeResult : List JRecord → Except String (List String)
  readResult : List (String × FilterVal) → Except String (List ListingView)

/-- Model of `initSecretVault`: short-circuit when already initialized with a
wrapper; otherwise the wrapper is constructed (so `secretVaultWrapper`
becomes non-null) and `init()` runs; on failure an `InitializationError`
wrapping the underlying message is thrown and `initialized` stays false. -/
def initSecretVault (env : Env) (s : ProviderState) :
    Except VaultError Unit × ProviderState :=
  if s.initialized && s.hasWrapper then (.ok (), s)
  else
    match env.initResult s.nodes s.credentials with
    | none => (.ok (), { s with initialized := true, hasWrapper := true })
    | some m =>
      (.error (.sv ("Failed to initialize SecretVault: " ++ m)),
       { s with hasWrapper := true, initialized := false })

/-- Model of `checkSchemaId`: an empty (falsy) entry in `SCHEMA_IDS` raises
`MissingSchemaError`, whose formatted message names the schema kind. -/
def checkSchemaId (schemaType : SchemaKind) (ids : SchemaIds) :
    Except VaultError String :=
  let schemaId := ids.get schemaType
  if schemaId = "" then
    .error (.sv ("Schema ID for " ++ schemaKindName schemaType
      ++ " is missing. Please create the schema first."))
  else .ok schemaId

/-- Validated input of `configure-secretvault`. -/
structure ConfigureArgs where
  nodes : List NodeConfig
  credentials : OrgCredentials

/-- Validated input of `create-schema`. -/
structure CreateSchemaArgs where
  schemaType : SchemaKind
  title : Option String

/-- Validated `service_details` block of `create-service-listing`. -/
structure ServiceDetailsArgs where
  title : String
  description : String
  duration_minutes : Int

/-- Validated `availability` block of `create-service-listing`. -/
structure AvailabilityArgs where
  date : String
  start_time : String
  end_time : String
  timezone : String

/-- Validated `price` block of `create-service-listing`. -/
structure PriceArgs where
  amount : Int
  currency : String

/-- Validated input of `create-service-listing`. -/
structure ServiceListingArgs where
  provider_name : String
  provider_id : String
  service_type : String
  service_details : ServiceDetailsArgs
  availability : AvailabilityArgs
  price : PriceArgs
  contact_info : String

/-- The args object of `create-service-listing` as a record, in schema key
order (what `{...args}` spreads). -/
def ServiceListingArgs.toRecord (a : ServiceListingArgs) : JRecord :=
  [("provider_name", .str a.provider_name),
   ("provider_id", .str a.provider_id),
   ("service_type", .str a.service_type),
   ("service_details", .obj
     [("title", .str a.service_details.title),
      ("description", .str a.service_details.description),
      ("duration_minutes", .num a.service_details.duration_minutes)]),
   ("availability", .obj
     [("date", .str a.availability.date),
      ("start_time", .str a.availability.start_time),
      ("end_time", .str a.availability.end_time),
      ("timezone", .str a.availability.timezone)]),
   ("price", .obj
     [("amount", .num a.price.amount),
      ("currency", .str a.price.currency)]),
   ("contact_info", .str a.contact_info)]

/-- Validated input of `query-service-listings`. -/
structure QueryArgs where
  service_type : Option String
  date : Option String
  price_max : Option Int

/-- Validated input of `create-booking`; `meeting_link` is optional. -/
structure BookingArgs where
  service_id : String
  customer_id : String
  customer_name : String
  meeting_link : Option String

/-- The args object of `create-booking` as a record (absent optional keys are
absent from the object zod returns). -/
def BookingArgs.toRecord (a : BookingArgs) : JRecord :=
  [("service_id", .str a.service_id),
   ("customer_id", .str a.customer_id),
   ("customer_name", .str a.customer_name)]
  ++ (match a.meeting_link with
      | some s => [("meeting_link", JVal.str s)]
      | none => [])

/-- Validated input of `update-booking-status` (enum fields kept as their
string spellings, already checked by zod). -/
structure UpdateBookingArgs where
  booking_id : String
  service_status : String
  payment_status : Option String
  notes : Option String
  meeting_link : Option String

/-- Validated input of `get-booking-details`. -/
structure GetBookingArgs where
  booking_id : String

/-- Validated input of `create-feedback`. -/
structure FeedbackArgs where
  booking_id : String
  provider_rating : Option Int
  customer_rating : Option Int
  provider_feedback : Option String
  customer_feedback : Option String
  agent_notes : Option String

/-- The args object of `create-feedback` as a record. -/
def FeedbackArgs.toRecord (a : FeedbackArgs) : JRecord :=
  [("booking_id", .str a.booking_id)]
  ++ (match a.provider_rating with
      | some n => [("provider_rating", JVal.num n)]
      | none => [])
  ++ (match a.customer_rating with
      | some n => [("customer_rating", JVal.num n)]
      | none => [])
  ++ (match a.provider_feedback with
      | some s => [("provider_feedback", JVal.str s)]
      | none => [])
  ++ (match a.customer_feedback with
      | some s => [("customer_feedback", JVal.str s)]
      | none => [])
  ++ (match a.agent_notes with
      | some s => [("agent_notes", JVal.str s)]
      | none => [])

/-- Validated input of `resolve-feedback`. -/
structure ResolveFeedbackArgs where
  feedback_id : String
  resolution_status : String
  resolution_notes : Option String

/-- Validated input of `get-feedback`. -/
structure GetFeedbackArgs where
  feedback_id : String

/-- Record builder inside `createServiceListing`: spread the args, set the
default status and a fresh identifier, then mark the fixed confidential
fields for encryption. -/
def createServiceListingData (a : ServiceListingArgs) (uuid : String) : JRecord :=
  prepareDataForEncryption
    (setKey (setKey a.toRecord "status" (.str "available")) "_id" (.str uuid))
    ["provider_name", "provider_id", "contact_info"]

/-- Record builder inside `createBooking`: the optional meeting link is added
to the encrypted-field list only when truthy (`if (args.meeting_link)`). -/
def createBookingData (a : BookingArgs) (uuid now : String) : JRecord :=
  let encryptedFields := ["customer_id", "customer_name"]
    ++ (match a.meeting_link with
        | some s => if s = "" then [] else ["meeting_link"]
        | none => [])
  prepareDataForEncryption
    (setKey (setKey (setKey (setKey (setKey a.toRecord
      "_id" (.str uuid)) "booking_time" (.str now))
      "payment_status" (.str "pending")) "service_status" (.str "scheduled"))
      "notes" (.str ""))
    encryptedFields

/-- Record builder inside `createFeedback`: `agent_notes` is marked only when
truthy (`if (args.agent_notes)`). -/
def createFeedbackData (a : FeedbackArgs) (uuid : String) : JRecord :=
  let encryptedFields :=
    match a.agent_notes with
    | some s => if s = "" then [] else ["agent_notes"]
    | none => []
  prepareDataForEncryption
    (setKey (setKey a.toRecord "_id" (.str uuid)) "resolution_status" (.str "pending"))
    encryptedFields

/-- The hard-coded mock payload returned by `getBookingDetails`; only `_id`
echoes the requested identifier. -/
def mockBooking (bookingId : String) : List (String × JLit) :=
  [("_id", .s bookingId),
   ("service_id", .s "service-123"),
   ("customer_name", .s "John Doe"),
   ("booking_time", .s "2023-05-15T18:00:00Z"),
   ("service_status", .s "scheduled"),
   ("payment_status", .s "pending"),
   ("meeting_link", .s "https://meet.jitsi.si/secure-meeting-123")]

/-- The hard-coded mock payload returned by `getFeedback`; only `_id` echoes
the requested identifier. -/
def mockFeedback (feedbackId : String) : List (String × JLit) :=
  [("_id", .s feedbackId),
   ("booking_id", .s "booking-123"),
   ("provider_rating", .n 4),
   ("customer_rating", .n 5),
   ("provider_feedback", .s "Great student, was on time and prepared!"),
   ("customer_feedback", .s "Excellent teacher, very clear explanations"),
   ("resolution_status", .s "resolved"),
   ("agent_notes", .s "Both parties were satisfied with the service")]

/-- The per-listing projection built by `queryServiceListings` before
serialization. -/
def listingRow (l : ListingView) : List (String × JLit) :=
  [("id", .s l.rid),
   ("title", .s l.title),
   ("description", .s l.description),
   ("service_type", .s l.service_type),
   ("duration_minutes", .n l.duration_minutes),
   ("date", .s l.date),
   ("time", .s (l.start_time ++ " - " ++ l.end_time)),
   ("timezone", .s l.timezone),
   ("price", .s (toString l.price_amount ++ " " ++ l.price_currency))]

/-- The filter object built by `queryServiceListings`; each optional filter
is added only when the argument is truthy. -/
def buildQueryFilters (args : QueryArgs) : List (String × FilterVal) :=
  let f0 := [("status", FilterVal.fstr "available")]
  let f1 := match args.service_type with
    | some t => if t = "" then f0 else f0 ++ [("service_type", FilterVal.fstr t)]
    | none => f0
  let f2 := match args.date with
    | some d => if d = "" then f1 else f1 ++ [("availability.date", FilterVal.fstr d)]
    | none => f1
  match args.price_max with
  | some n => if n = 0 then f2 else f2 ++ [("price.amount", FilterVal.flte n)]
  | none => f2

/-- Try-block of `configureSecretVault`: the node list and credentials are
overwritten and `initialized` cleared BEFORE the connection attempt. -/
def configureBody (env : Env) (s : ProviderState) (args : ConfigureArgs) :
    Except VaultError String × ProviderState :=
  let s1 := { s with
    nodes := args.nodes
    credentials := args.credentials
    initialized := false }
  match initSecretVault env s1 with
  | (.ok _, s2) => (.ok "SecretVault configuration updated successfully", s2)
  | (.error e, s2) => (.error e, s2)

/-- Try-block of `createSchema`; on success the module-level `SCHEMA_IDS`
entry is updated. -/
def createSchemaBody (env : Env) (s : ProviderState) (args : CreateSchemaArgs) :
    Except VaultError String × ProviderState :=
  match initSecretVault env s with
  | (.error e, s1) => (.error e, s1)
  | (.ok _, s1) =>
    let schemaData := getSchemaByType args.schemaType
    let title := match args.title with
      | some t => if t = "" then schemaKindName args.schemaType ++ " Schema" else t
      | none => schemaKindName args.schemaType ++ " Schema"
    match env.createSchemaResult schemaData title with
    | .error m => (.error (.js m), s1)
    | .ok sid =>
      (.ok ("Schema created successfully\nSchema ID: " ++ sid ++ "\nTitle: " ++ title),
       { s1 with schemaIds := s1.schemaIds.setId args.schemaType sid })

/-- Try-block of `createServiceListing`. -/
def createListingBody (env : Env) (s : ProviderState) (args : ServiceListingArgs)
    (bytes : Fin 16 → Nat) : Except VaultError String × ProviderState :=
  match initSecretVault env s with
  | (.error e, s1) => (.error e, s1)
  | (.ok _, s1) =>
    match checkSchemaId .SERVICE_LISTING s1.schemaIds with
    | .error e => (.error e, s1)
    | .ok _ =>
      let serviceData := createServiceListingData args (uuidv4 bytes)
      match env.writeResult [serviceData] with
      | .error m => (.error (.js m), s1)
      | .ok created =>
        (.ok ("Service listing created successfully\nListing ID: "
          ++ created.headD "undefined"), s1)

/-- Try-block of `queryServiceListings`. -/
def queryListingsBody (env : Env) (s : ProviderState) (args : QueryArgs) :
    Except VaultError String × ProviderState :=
  match initSecretVault env s with
  | (.error e, s1) => (.error e, s1)
  | (.ok _, s1) =>
    match checkSchemaId .SERVICE_LISTING s1.schemaIds with
    | .error e => (.error e, s1)
    | .ok _ =>
      match env.readResult (buildQueryFilters args) with
      | .error m => (.error (.js m), s1)
      | .ok results =>
        if results.length = 0 then
          (.ok "No service listings found matching your criteria", s1)
        else
          (.ok ("Found " ++ toString results.length ++ " service listings:\n"
            ++ jsonFlatArr (results.map listingRow)), s1)

/-- Try-block of `createBooking`: the BOOKING schema is checked before the
SERVICE_LISTING schema. -/
def createBookingBody (env : Env) (s : ProviderState) (args : BookingArgs)
    (bytes : Fin 16 → Nat) (now : String) : Except VaultError String × ProviderState :=
  match initSecretVault env s with
  | (.error e, s1) => (.error e, s1)
  | (.ok _, s1) =>
    match checkSchemaId .BOOKING s1.schemaIds with
    | .error e => (.error e, s1)
    | .ok _ =>
      match checkSchemaId .SERVICE_LISTING s1.schemaIds with
      | .error e => (.error e, s1)
      | .ok _ =>
        let bookingData := createBookingData args (uuidv4 bytes) now
        match env.writeResult [bookingData] with
        | .error m => (.error (.js m), s1)
        | .ok created =>
          (.ok ("Service booked successfully\nBooking ID: "
            ++ created.headD "undefined"), s1)

/-- Try-block of `updateBookingStatus` (a stub: nothing is persisted). -/
def updateBookingBody (env : Env) (s : ProviderState) (args : UpdateBookingArgs) :
    Except VaultError String × ProviderState :=
  match initSecretVault env s with
  | (.error e, s1) => (.error e, s1)
  | (.ok _, s1) =>
    match checkSchemaId .BOOKING s1.schemaIds with
    | .error e => (.error e, s1)
    | .ok _ => (.ok ("Booking status updated to: " ++ args.service_status), s1)

/-- Try-block of `getBookingDetails` (a stub returning the mock payload). -/
def getBookingBody (env : Env) (s : ProviderState) (args : GetBookingArgs) :
    Except VaultError String × ProviderState :=
  match initSecretVault env s with
  | (.error e, s1) => (.error e, s1)
  | (.ok _, s1) =>
    match checkSchemaId .BOOKING s1.schemaIds with
    | .error e => (.error e, s1)
    | .ok _ =>
      (.ok ("Booking details:\n" ++ jsonFlatObj "" (mockBooking args.booking_id)), s1)

/-- Try-block of `createFeedback`. -/
def createFeedbackBody (env : Env) (s : ProviderState) (args : FeedbackArgs)
    (bytes : Fin 16 → Nat) : Except VaultError String × ProviderState :=
  match initSecretVault env s with
  | (.error e, s1) => (.error e, s1)
  | (.ok _, s1) =>
    match checkSchemaId .FEEDBACK s1.schemaIds with
    | .error e => (.error e, s1)
    | .ok _ =>
      let feedbackData := createFeedbackData args (uuidv4 bytes)
      match env.writeResult [feedbackData] with
      | .error m => (.error (.js m), s1)
      | .ok created =>
        (.ok ("Feedback created successfully\nFeedback ID: "
          ++ created.headD "undefined"), s1)

/-- Try-block of `resolveFeedback` (a stub echoing the requested status). -/
def resolveFeedbackBody (env : Env) (s : ProviderState) (args : ResolveFeedbackArgs) :
    Except VaultError String × ProviderState :=
  match initSecretVault env s with
  | (.error e, s1) => (.error e, s1)
  | (.ok _, s1) =>
    match checkSchemaId .FEEDBACK s1.schemaIds with
    | .error e => (.error e, s1)
    | .ok _ => (.ok ("Feedback resolved with status: " ++ args.resolution_status), s1)

/-- Try-block of `getFeedback` (a stub returning the mock payload). -/
def getFeedbackBody (env : Env) (s : ProviderState) (args : GetFeedbackArgs) :
    Except VaultError String × ProviderState :=
  match initSecretVault env s with
  | (.error e, s1) => (.error e, s1)
  | (.ok _, s1) =>
    match checkSchemaId .FEEDBACK s1.schemaIds with
    | .error e => (.error e, s1)
    | .ok _ =>
      (.ok ("Feedback details:\n" ++ jsonFlatObj "" (mockFeedback args.feedback_id)), s1)

/-- The catch-block shared by every action: a `NillionSecretVaultError`
becomes an "Error: message" string, any other failure becomes the action's
own context text followed by the message; successes pass through. -/
def runAction (context : String) (r : Except VaultError String × ProviderState) :
    String × ProviderState :=
  match r with
  | (.ok m, s) => (m, s)
  | (.error (.sv m), s) => ("Error: " ++ m, s)
  | (.error (.js m), s) => (context ++ m, s)

/-- Action `configure-secretvault`. -/
def configureSecretVault (env : Env) (s : ProviderState) (args : ConfigureArgs) :
    String × ProviderState :=
  runAction "Configuration error: " (configureBody env s args)

/-- Action `create-schema`. -/
def createSchema (env : Env) (s : ProviderState) (args : CreateSchemaArgs) :
    String × ProviderState :=
  runAction "Schema creation error: " (createSchemaBody env s args)

/-- Action `create-service-listing`. -/
def createServiceListing (env : Env) (s : ProviderState) (args : ServiceListingArgs)
    (bytes : Fin 16 → Nat) : String × ProviderState :=
  runAction "Error creating service listing: " (createListingBody env s args bytes)

/-- Action `query-service-listings`. -/
def queryServiceListings (env : Env) (s : ProviderState) (args : QueryArgs) :
    String × ProviderState :=
  runAction "Error querying service listings: " (queryListingsBody env s args)

/-- Action `create-booking`. -/
def createBooking (env : Env) (s : ProviderState) (args : BookingArgs)
    (bytes : Fin 16 → Nat) (now : String) : String × ProviderState :=
  runAction "Error creating booking: " (createBookingBody env s args bytes now)

/-- Action `update-booking-status`. -/
def updateBookingStatus (env : Env) (s : ProviderState) (args : UpdateBookingArgs) :
    String × ProviderState :=
  runAction "Error updating booking status: " (updateBookingBody env s args)

/-- Action `get-booking-details`. -/
def getBookingDetails (env : Env) (s : ProviderState) (args : GetBookingArgs) :
    String × ProviderState :=
  runAction "Error getting booking details: " (getBookingBody env s args)

/-- Action `create-feedback`. -/
def createFeedback (env : Env) (s : ProviderState) (args : FeedbackArgs)
    (bytes : Fin 16 → Nat) : String × ProviderState :=
  runAction "Error creating feedback: " (createFeedbackBody env s args bytes)

/-- Action `resolve-feedback`. -/
def resolveFeedback (env : Env) (s : ProviderState) (args : ResolveFeedbackArgs) :
    String × ProviderState :=
  runAction "Error resolving feedback: " (resolveFeedbackBody env s args)

/-- Action `get-feedback`. -/
def getFeedback (env : Env) (s : ProviderState) (args : GetFeedbackArgs) :
    String × ProviderState :=
  runAction "Error getting feedback: " (getFeedbackBody env s args)

/-- Action `generate-uuid`: returns `uuidv4()` with no try/catch (the
generator cannot throw). -/
def generateUuid (bytes : Fin 16 → Nat) (s : ProviderState) :
    String × ProviderState :=
  (uuidv4 bytes, s)

/-- One invocation of some action of the surface, with its validated
arguments and the nondeterministic inputs the source draws
(`uuidv4()` bytes, `new Date().toISOString()`). -/
inductive ActionCall where
  | configure (args : ConfigureArgs)
  | createSchemaA (args : CreateSchemaArgs)
  | createListingA (args : ServiceListingArgs) (bytes : Fin 16 → Nat)
  | queryListingsA (args : QueryArgs)
  | createBookingA (args : BookingArgs) (bytes : Fin 16 → Nat) (now : String)
  | updateBookingA (args : UpdateBookingArgs)
  | getBookingA (args : GetBookingArgs)
  | createFeedbackA (args : FeedbackArgs) (bytes : Fin 16 → Nat)
  | resolveFeedbackA (args : ResolveFeedbackArgs)
  | getFeedbackA (args : GetFeedbackArgs)
  | genUuid (bytes : Fin 16 → Nat)

/-- The try-block outcome of an action call (before its catch block). -/
def callBody (c : ActionCall) (env : Env) (s : ProviderState) :
    Except VaultError String × ProviderState :=
  match c with
  | .configure a => configureBody env s a
  | .createSchemaA a => createSchemaBody env s a
  | .createListingA a b => createListingBody env s a b
  | .queryListingsA a => queryListingsBody env s a
  | .createBookingA a b n => createBookingBody env s a b n
  | .updateBookingA a => updateBookingBody env s a
  | .getBookingA a => getBookingBody env s a
  | .createFeedbackA a b => createFeedbackBody env s a b
  | .resolveFeedbackA a => resolveFeedbackBody env s a
  | .getFeedbackA a => getFeedbackBody env s a
  | .genUuid b => (.ok (uuidv4 b), s)

/-- The context text each catch block prepends to an unrecognized error. -/
def errContext : ActionCall → String
  | .configure _ => "Configuration error: "
  | .createSchemaA _ => "Schema creation error: "
  | .createListingA _ _ => "Error creating service listing: "
  | .queryListingsA _ => "Error querying service listings: "
  | .createBookingA _ _ _ => "Error creating booking: "
  | .updateBookingA _ => "Error updating booking status: "
  | .getBookingA _ => "Error getting booking details: "
  | .createFeedbackA _ _ => "Error creating feedback: "
  | .resolveFeedbackA _ => "Error resolving feedback: "
  | .getFeedbackA _ => "Error getting feedback: "
  | .genUuid _ => ""

/-- Run an action call end to end (try block plus catch block), dispatching
to the named actions. -/
def runCall (c : ActionCall) (env : Env) (s : ProviderState) :
    String × ProviderState :=
  match c with
  | .configure a => configureSecretVault env s a
  | .createSchemaA a => createSchema env s a
  | .createListingA a b => createServiceListing env s a b
  | .queryListingsA a => queryServiceListings env s a
  | .createBookingA a b n => createBooking env s a b n
  | .updateBookingA a => updateBookingStatus env s a
  | .getBookingA a => getBookingDetails env s a
  | .createFeedbackA a b => createFeedback env s a b
  | .resolveFeedbackA a => resolveFeedback env s a
  | .getFeedbackA a => getFeedback env s a
  | .genUuid b => generateUuid b s

/-- The shape every success message of the surface takes: a confirmation
containing the relevant identifier or echoed field where one exists. -/
def SuccessShape : ActionCall → String → Prop
  | .configure _, m => m = "SecretVault configuration updated successfully"
  | .createSchemaA _, m => ∃ sid title,
      m = "Schema created successfully\nSchema ID: " ++ sid ++ "\nTitle: " ++ title
  | .createListingA _ _, m => ∃ lid,
      m = "Service listing created successfully\nListing ID: " ++ lid
  | .queryListingsA _, m =>
      m = "No service listings found matching your criteria"
      ∨ ∃ (n : Nat) (body : String),
          m = "Found " ++ toString n ++ " service listings:\n" ++ body
  | .createBookingA _ _ _, m => ∃ bid,
      m = "Service booked successfully\nBooking ID: " ++ bid
  | .updateBookingA a, m => m = "Booking status updated to: " ++ a.service_status
  | .getBookingA a, m =>
      m = "Booking details:\n" ++ jsonFlatObj "" (mockBooking a.booking_id)
  | .createFeedbackA _ _, m => ∃ fid,
      m = "Feedback created successfully\nFeedback ID: " ++ fid
  | .resolveFeedbackA a, m => m = "Feedback resolved with status: " ++ a.resolution_status
  | .getFeedbackA a, m =>
      m = "Feedback details:\n" ++ jsonFlatObj "" (mockFeedback a.feedback_id)
  | .genUuid b, m => m = uuidv4 b

/-- String prefix test on character lists, used to state the claimed
"Error: description" shape of failure messages. -/
def strStarts (p s : String) : Bool := p.data.isPrefixOf s.data

theorem lookupR_setKey_self {α : Type} (l : List (String × α)) (k : String) (v : α) :
    lookupR (setKey l k v) k = some v := by
  induction l with
  | nil => simp [setKey, lookupR]
  | cons hd tl ih =>
    obtain ⟨k1, v1⟩ := hd
    by_cases h : k = k1
    · simp [setKey, h, lookupR]
    · simp [setKey, h, lookupR, ih]

theorem lookupR_setKey_other {α : Type} (l : List (String × α)) (k k2 : String) (v : α)
    (h : k2 ≠ k) : lookupR (setKey l k v) k2 = lookupR l k2 := by
  induction l with
  | nil => simp [setKey, lookupR, h]
  | cons hd tl ih =>
    obtain ⟨k1, v1⟩ := hd
    by_cases h1 : k = k1
    · subst h1
      simp [setKey, lookupR, h]
    · by_cases h2 : k2 = k1
      · simp [setKey, h1, lookupR, h2]
      · simp [setKey, h1, lookupR, h2, ih]

theorem getProp_of_not_truthy (v : JVal) (c : String) (h : truthy v = false) :
    getProp v c = none := by
  cases v <;> simp_all [truthy, getProp]

theorem pathLookupT_applyField_self (r : JRecord) (f : String) :
    pathLookupT (applyField r f) (fieldTarget f)
      = (pathLookupT r (fieldTarget f)).map wrapIfTruthy := by
  unfold applyField fieldTarget
  rcases hs : splitDot f with _ | ⟨p, _ | ⟨c, rest⟩⟩
  · simp only [pathLookupT]
    cases hv : lookupR r f with
    | none => simp [pathLookupT, hv]
    | some v =>
      by_cases ht : truthy v = true
      · simp [pathLookupT, hv, ht, lookupR_setKey_self, wrapIfTruthy]
      · simp [pathLookupT, hv, ht, wrapIfTruthy]
  · simp only [pathLookupT]
    cases hv : lookupR r f with
    | none => simp [pathLookupT, hv]
    | some v =>
      by_cases ht : truthy v = true
      · simp [pathLookupT, hv, ht, lookupR_setKey_self, wrapIfTruthy]
      · simp [pathLookupT, hv, ht, wrapIfTruthy]
  · simp only [pathLookupT]
    cases hpv : lookupR r p with
    | none => simp [pathLookupT, hpv]
    | some pv =>
      by_cases htp : truthy pv = true
      · cases hcv : getProp pv c with
        | none => simp [pathLookupT, hpv, htp, hcv]
        | some cv =>
          by_cases htc : truthy cv = true
          · cases pv with
            | obj fs =>
              simp only [getProp] at hcv
              simp [pathLookupT, hpv, htp, hcv, htc, lookupR_setKey_self, setProp,
                getProp, lookupR_setKey_self, wrapIfTruthy]
            | str s => simp [getProp] at hcv
            | num n => simp [getProp] at hcv
            | bool b => simp [getProp] at hcv
            | null => simp [getProp] at hcv
          · simp [pathLookupT, hpv, htp, hcv, htc, wrapIfTruthy]
      · have hn : getProp pv c = none :=
          getProp_of_not_truthy pv c (by simpa using htp)
        simp [pathLookupT, hpv, htp, hn]

theorem pathLookupT_applyField_other (r : JRecord) (g : String) (p : String × Option String)
    (h : ¬ targetTouches (fieldTarget g) p) :
    pathLookupT (applyField r g) p = pathLookupT r p := by
  obtain ⟨p1, p2⟩ := p
  unfold applyField fieldTarget at *
  rcases hs : splitDot g with _ | ⟨q, _ | ⟨c, rest⟩⟩ <;> rw [hs] at h
  · have hne : g ≠ p1 := by
      intro he
      exact h ⟨he, Or.inl rfl⟩
    cases hv : lookupR r g with
    | none => rfl
    | some v =>
      by_cases ht : truthy v = true
      · cases p2 <;> simp [pathLookupT, ht, lookupR_setKey_other _ _ _ _ (Ne.symm hne)]
      · simp [ht]
  · have hne : g ≠ p1 := by
      intro he
      exact h ⟨he, Or.inl rfl⟩
    cases hv : lookupR r g with
    | none => rfl
    | some v =>
      by_cases ht : truthy v = true
      · cases p2 <;> simp [pathLookupT, ht, lookupR_setKey_other _ _ _ _ (Ne.symm hne)]
      · simp [ht]
  · by_cases hq : q = p1
    · subst hq
      have hp2 : ∃ d, p2 = some d ∧ d ≠ c := by
        cases p2 with
        | none => exact absurd ⟨rfl, Or.inr (Or.inl rfl)⟩ h
        | some d =>
          refine ⟨d, rfl, ?_⟩
          intro he
          exact h ⟨rfl, Or.inr (Or.inr (by rw [he]))⟩
      obtain ⟨d, hd, hdc⟩ := hp2
      subst hd
      cases hpv : lookupR r q with
      | none => simp [pathLookupT, hpv]
      | some pv =>
        by_cases htp : truthy pv = true
        · cases hcv : getProp pv c with
          | none => simp [pathLookupT, hpv, htp, hcv]
          | some cv =>
            by_cases htc : truthy cv = true
            · cases pv with
              | obj fs =>
                simp only [getProp] at hcv
                simp [pathLookupT, hpv, htp, hcv, htc, lookupR_setKey_self, setProp,
                  getProp, lookupR_setKey_other _ _ _ _ hdc]
              | str s => simp [getProp] at hcv
              | num n => simp [getProp] at hcv
              | bool b => simp [getProp] at hcv
              | null => simp [getProp] at hcv
            · simp [pathLookupT, hpv, htp, hcv, htc]
        · simp [pathLookupT, hpv, htp]
    · cases hpv : lookupR r q with
      | none => simp [pathLookupT, hpv]
      | some pv =>
        by_cases htp : truthy pv = true
        · cases hcv : getProp pv c with
          | none => simp [pathLookupT, hpv, htp, hcv]
          | some cv =>
            by_cases htc : truthy cv = true
            · cases p2 <;>
                simp [pathLookupT, hpv, htp, hcv, htc,
                  lookupR_setKey_other _ _ _ _ (Ne.symm hq)]
            · simp [pathLookupT, hpv, htp, hcv, htc]
        · simp [pathLookupT, hpv, htp]

theorem prepare_cons (data : JRecord) (g : String) (rest : List String) :
    prepareDataForEncryption data (g :: rest)
      = prepareDataForEncryption (applyField data g) rest := rfl

theorem pathLookupT_fold_untouched (fields : List String) (data : JRecord)
    (p : String × Option String)
    (h : ∀ f ∈ fields, ¬ targetTouches (fieldTarget f) p) :
    pathLookupT (prepareDataForEncryption data fields) p = pathLookupT data p := by
  induction fields generalizing data with
  | nil => rfl
  | cons g rest ih =>
    rw [prepare_cons, ih (applyField data g) (fun f hf => h f (List.mem_cons_of_mem _ hf))]
    exact pathLookupT_applyField_other data g p (h g (List.mem_cons_self _ _))

theorem touches_targets_eq (f g : String)
    (hsep1 : (fieldTarget f).2.isSome → (fieldTarget g).2 = none
      → (fieldTarget f).1 ≠ (fieldTarget g).1)
    (hsep2 : (fieldTarget g).2.isSome → (fieldTarget f).2 = none
      → (fieldTarget g).1 ≠ (fieldTarget f).1)
    (ht : targetTouches (fieldTarget f) (fieldTarget g)) : fieldTarget f = fieldTarget g := by
  obtain ⟨h1, h2⟩ := ht
  rcases h2 with h2 | h2 | h2
  · rcases hg : (fieldTarget g).2 with _ | d
    · exact Prod.ext h1 (by rw [h2, hg])
    · exact absurd h1 (Ne.symm (hsep2 (by simp [hg]) h2))
  · rcases hf : (fieldTarget f).2 with _ | d
    · exact Prod.ext h1 (by rw [h2, hf])
    · exact absurd h1 (hsep1 (by simp [hf]) h2)
  · exact Prod.ext h1 h2

theorem prepare_marks_listed (data : JRecord) (fields : List String)
    (hnodup : (fields.map fieldTarget).Nodup)
    (hsep : ∀ f ∈ fields, ∀ g ∈ fields, (fieldTarget f).2.isSome
      → (fieldTarget g).2 = none → (fieldTarget f).1 ≠ (fieldTarget g).1) :
    ∀ f ∈ fields, pathLookupT (prepareDataForEncryption data fields) (fieldTarget f)
      = (pathLookupT data (fieldTarget f)).map wrapIfTruthy := by
  induction fields generalizing data with
  | nil => intro f hf; cases hf
  | cons g rest ih =>
    have hnd : (∀ x ∈ rest, ¬ fieldTarget x = fieldTarget g)
        ∧ (List.map fieldTarget rest).Nodup := by simpa using hnodup
    intro f hf
    rcases List.mem_cons.mp hf with hf | hf
    · subst hf
      rw [prepare_cons]
      rw [pathLookupT_fold_untouched rest (applyField data f) (fieldTarget f) ?_]
      · exact pathLookupT_applyField_self data f
      · intro f2 hf2 htouch
        have heq := touches_targets_eq f2 f
          (hsep f2 (List.mem_cons_of_mem _ hf2) f (List.mem_cons_self _ _))
          (hsep f (List.mem_cons_self _ _) f2 (List.mem_cons_of_mem _ hf2)) htouch
        exact hnd.1 f2 hf2 heq
    · rw [prepare_cons]
      rw [ih (applyField data g) hnd.2
        (fun a ha b hb => hsep a (List.mem_cons_of_mem _ ha) b (List.mem_cons_of_mem _ hb))
        f hf]
      congr 1
      apply pathLookupT_applyField_other
      intro htouch
      have heq := touches_targets_eq g f
        (hsep g (List.mem_cons_self _ _) f (List.mem_cons_of_mem _ hf))
        (hsep f (List.mem_cons_of_mem _ hf) g (List.mem_cons_self _ _)) htouch
      exact hnd.1 f hf heq.symm


theorem lookupObjField_some (hh : Heap) (res : Nat) (f : String) (v : HVal)
    (hv : lookupObjField hh res f = some v) :
    ∃ fs, hh.getObj res = some fs ∧ lookupR fs f = some v := by
  unfold lookupObjField at hv
  cases hg : hh.getObj res with
  | none => rw [hg] at hv; simp at hv
  | some fs => rw [hg] at hv; exact ⟨fs, rfl, by simpa using hv⟩

theorem getObj_some_bound (hh : Heap) (res : Nat) (fs : List (String × HVal))
    (hg : hh.getObj res = some fs) : res < hh.objs.length := by
  unfold Heap.getObj at hg
  exact (List.getElem?_eq_some.mp hg).1

theorem length_setFieldInObj (h : Heap) (a : Nat) (k : String) (v : HVal) :
    (setFieldInObj h a k v).objs.length = h.objs.length := by
  unfold setFieldInObj
  cases hg : h.getObj a with
  | none => rfl
  | some fs => simp [Heap.setObj]

theorem getObj_setFieldInObj_ne (h : Heap) (a b : Nat) (k : String) (v : HVal)
    (hne : b ≠ a) : (setFieldInObj h a k v).getObj b = h.getObj b := by
  unfold setFieldInObj
  cases hg : h.getObj a with
  | none => rfl
  | some fs =>
    unfold Heap.setObj Heap.getObj
    exact List.getElem?_set_ne (Ne.symm hne)

theorem lookupObjField_setFieldInObj_ne (h : Heap) (a : Nat) (k k2 : String) (v : HVal)
    (hk : k2 ≠ k) :
    lookupObjField (setFieldInObj h a k v) a k2 = lookupObjField h a k2 := by
  unfold setFieldInObj
  cases hg : h.getObj a with
  | none => rfl
  | some fs =>
    unfold lookupObjField Heap.setObj Heap.getObj
    have hl : (h.objs.set a (setKey fs k v))[a]? = some (setKey fs k v) :=
      List.getElem?_set_self (getObj_some_bound h a fs hg)
    rw [hl]
    unfold Heap.getObj at hg
    rw [hg]
    simp [lookupR_setKey_other _ _ _ _ hk]

theorem getObj_alloc (h : Heap) (o : List (String × HVal)) (a : Nat)
    (ha : a < h.objs.length) : (h.alloc o).1.getObj a = h.getObj a := by
  unfold Heap.alloc Heap.getObj
  exact List.getElem?_append_left ha

theorem length_alloc (h : Heap) (o : List (String × HVal)) :
    (h.alloc o).1.objs.length = h.objs.length + 1 := by
  simp [Heap.alloc]

theorem lookupObjField_alloc (h : Heap) (o : List (String × HVal)) (a : Nat) (k : String)
    (ha : a < h.objs.length) :
    lookupObjField (h.alloc o).1 a k = lookupObjField h a k := by
  unfold lookupObjField
  rw [getObj_alloc h o a ha]

theorem applyFieldHeap_top_eq (hh : Heap) (res : Nat) (f : String)
    (hf : splitDot f = [f]) :
    applyFieldHeap hh res f
      = match lookupObjField hh res f with
        | some v =>
          if truthyH v = true then
            setFieldInObj (hh.alloc [("%allot", v)]).1 res f
              (.vref (hh.alloc [("%allot", v)]).2)
          else hh
        | none => hh := by
  unfold applyFieldHeap
  rw [hf]

theorem applyFieldHeap_top (hh : Heap) (res : Nat) (f : String)
    (hf : splitDot f = [f]) :
    (∀ a, a < hh.objs.length → a ≠ res
      → (applyFieldHeap hh res f).getObj a = hh.getObj a) ∧
    hh.objs.length ≤ (applyFieldHeap hh res f).objs.length ∧
    (∀ k, k ≠ f → lookupObjField (applyFieldHeap hh res f) res k
      = lookupObjField hh res k) := by
  rw [applyFieldHeap_top_eq hh res f hf]
  cases hv : lookupObjField hh res f with
  | none => exact ⟨fun a _ _ => rfl, le_refl _, fun k _ => rfl⟩
  | some v =>
    by_cases ht : truthyH v = true
    · dsimp only
      rw [if_pos ht]
      obtain ⟨fs, hg, hlk⟩ := lookupObjField_some hh res f v hv
      have hres : res < hh.objs.length := getObj_some_bound hh res fs hg
      refine ⟨?_, ?_, ?_⟩
      · intro a ha hne
        rw [getObj_setFieldInObj_ne _ res a _ _ hne]
        exact getObj_alloc hh _ a ha
      · rw [length_setFieldInObj, length_alloc]
        exact Nat.le_succ _
      · intro k hk
        rw [lookupObjField_setFieldInObj_ne _ res f k _ hk]
        exact lookupObjField_alloc hh _ res k hres
    · dsimp only
      rw [if_neg ht]
      exact ⟨fun a _ _ => rfl, le_refl _, fun k _ => rfl⟩

theorem foldHeap_spec (fields : List String) (hh : Heap) (res : Nat)
    (htop : ∀ f ∈ fields, splitDot f = [f]) :
    (∀ a, a < hh.objs.length → a ≠ res
      → (fields.foldl (fun h2 f => applyFieldHeap h2 res f) hh).getObj a = hh.getObj a) ∧
    hh.objs.length ≤ (fields.foldl (fun h2 f => applyFieldHeap h2 res f) hh).objs.length ∧
    (∀ k, k ∉ fields
      → lookupObjField (fields.foldl (fun h2 f => applyFieldHeap h2 res f) hh) res k
        = lookupObjField hh res k) := by
  induction fields generalizing hh with
  | nil => exact ⟨fun a _ _ => rfl, le_refl _, fun k _ => rfl⟩
  | cons g rest ih =>
    have step := applyFieldHeap_top hh res g (htop g (List.mem_cons_self _ _))
    have ihs := ih (applyFieldHeap hh res g)
      (fun f hf2 => htop f (List.mem_cons_of_mem _ hf2))
    refine ⟨?_, ?_, ?_⟩
    · intro a ha hne
      rw [List.foldl_cons]
      rw [ihs.1 a (lt_of_lt_of_le ha step.2.1) hne]
      exact step.1 a ha hne
    · rw [List.foldl_cons]
      exact le_trans step.2.1 ihs.2.1
    · intro k hk
      rw [List.foldl_cons]
      rw [ihs.2.2 k (fun hm => hk (List.mem_cons_of_mem _ hm))]
      exact step.2.2 k (fun he => hk (he ▸ List.mem_cons_self _ _))

/-- C1: the claim fails on the code.  The Field-Encryption Marker does not
replace every PRESENT listed field: presence is tested with JavaScript
truthiness, so a present falsy value (here the empty string) is left
unwrapped; and a path with two dots is not treated as absent but as its
first two segments, so "a.b.c" rewrites the record at "a.b". -/
theorem C1_counterexample :
    prepareDataForEncryption [("a", JVal.str "")] ["a"] = [("a", JVal.str "")]
    ∧ [("a", JVal.str "")] ≠ [("a", wrapAllot (JVal.str ""))]
    ∧ prepareDataForEncryption [("a", JVal.obj [("b", JVal.num 1)])] ["a.b.c"]
        = [("a", JVal.obj [("b", wrapAllot (JVal.num 1))])]
    ∧ [("a", JVal.obj [("b", wrapAllot (JVal.num 1))])]
        ≠ [("a", JVal.obj [("b", JVal.num 1)])] := by
  refine ⟨rfl, ?_, rfl, ?_⟩
  · simp [wrapAllot]
  · simp [wrapAllot]

/-- C1 (amended): for pairwise distinct effective targets (each field path
interpreted through the first two components of its dot-split), with no
top-level path equal to the parent of a nested path, the marker wraps each
listed target's value exactly when that value is truthy (leaving falsy
values, absent paths and non-object parents unchanged, and inserting no
key), and leaves every target it cannot touch unchanged. -/
theorem C1_marker_amended (data : JRecord) (fields : List String)
    (hnodup : (fields.map fieldTarget).Nodup)
    (hsep : ∀ f ∈ fields, ∀ g ∈ fields, (fieldTarget f).2.isSome
      → (fieldTarget g).2 = none → (fieldTarget f).1 ≠ (fieldTarget g).1) :
    (∀ f ∈ fields,
      pathLookupT (prepareDataForEncryption data fields) (fieldTarget f)
        = (pathLookupT data (fieldTarget f)).map wrapIfTruthy) ∧
    (∀ p : String × Option String, (∀ f ∈ fields, ¬ targetTouches (fieldTarget f) p) →
      pathLookupT (prepareDataForEncryption data fields) p = pathLookupT data p) :=
  ⟨prepare_marks_listed data fields hnodup hsep,
   fun p hp => pathLookupT_fold_untouched fields data p hp⟩

/-- C1 (amended) at a concrete input: a present truthy top-level field is
wrapped, a present truthy nested field is wrapped, an absent field stays
absent, and an unlisted field is untouched. -/
theorem C1_marker_amended_witness :
    pathLookupT (prepareDataForEncryption
        [("provider_name", JVal.str "Alice"),
         ("notes", JVal.str "x"),
         ("availability", JVal.obj [("date", JVal.str "2024-01-01")])]
        ["provider_name", "availability.date", "missing_field"])
      (fieldTarget "provider_name") = some (wrapAllot (JVal.str "Alice"))
    ∧ pathLookupT (prepareDataForEncryption
        [("provider_name", JVal.str "Alice"),
         ("notes", JVal.str "x"),
         ("availability", JVal.obj [("date", JVal.str "2024-01-01")])]
        ["provider_name", "availability.date", "missing_field"])
      (fieldTarget "availability.date") = some (wrapAllot (JVal.str "2024-01-01"))
    ∧ pathLookupT (prepareDataForEncryption
        [("provider_name", JVal.str "Alice"),
         ("notes", JVal.str "x"),
         ("availability", JVal.obj [("date", JVal.str "2024-01-01")])]
        ["provider_name", "availability.date", "missing_field"])
      (fieldTarget "missing_field") = none
    ∧ pathLookupT (prepareDataForEncryption
        [("provider_name", JVal.str "Alice"),
         ("notes", JVal.str "x"),
         ("availability", JVal.obj [("date", JVal.str "2024-01-01")])]
        ["provider_name", "availability.date", "missing_field"])
      ("notes", none) = some (JVal.str "x") := by
  have h := C1_marker_amended
    [("provider_name", JVal.str "Alice"),
     ("notes", JVal.str "x"),
     ("availability", JVal.obj [("date", JVal.str "2024-01-01")])]
    ["provider_name", "availability.date", "missing_field"]
    (by decide) (by decide)
  refine ⟨?_, ?_, ?_, ?_⟩
  · rw [h.1 "provider_name" (by decide)]
    rfl
  · rw [h.1 "availability.date" (by decide)]
    rfl
  · rw [h.1 "missing_field" (by decide)]
    rfl
  · rw [h.2 ("notes", none) (by decide)]
    rfl

/-- C4: the marker is not idempotent.  Applying it to a path whose value is
already the wrapper wraps the wrapper again, so applying it twice to the
same path differs from applying it once. -/
theorem C4_marker_not_idempotent :
    prepareDataForEncryption [("a", wrapAllot (JVal.num 1))] ["a"]
      = [("a", wrapAllot (wrapAllot (JVal.num 1)))]
    ∧ prepareDataForEncryption
        (prepareDataForEncryption [("a", JVal.num 1)] ["a"]) ["a"]
      ≠ prepareDataForEncryption [("a", JVal.num 1)] ["a"] := by
  refine ⟨rfl, ?_⟩
  intro h
  rw [show prepareDataForEncryption
        (prepareDataForEncryption [("a", JVal.num 1)] ["a"]) ["a"]
      = [("a", wrapAllot (wrapAllot (JVal.num 1)))] from rfl,
    show prepareDataForEncryption [("a", JVal.num 1)] ["a"]
      = [("a", wrapAllot (JVal.num 1))] from rfl] at h
  simp [wrapAllot] at h

/-- C2: the claim fails on the code.  For the nested path "p.c" the source
executes `result[parent][child] = wrapper` after only a top-level shallow
copy, so it writes through the reference shared with the INPUT record: after
the call the object the input record's "p" field references has its "c"
field replaced by the wrapper; the output's parent is that same mutated
object, not a copy. -/
theorem C2_counterexample :
    lookupObjField ⟨[[("p", HVal.vref 1)], [("c", HVal.vnum 1)]]⟩ 0 "p"
      = some (HVal.vref 1)
    ∧ lookupObjField ⟨[[("p", HVal.vref 1)], [("c", HVal.vnum 1)]]⟩ 1 "c"
      = some (HVal.vnum 1)
    ∧ lookupObjField
        (prepareDataForEncryptionHeap
          ⟨[[("p", HVal.vref 1)], [("c", HVal.vnum 1)]]⟩ 0 ["p.c"]).1 1 "c"
      = some (HVal.vref 3)
    ∧ (prepareDataForEncryptionHeap
        ⟨[[("p", HVal.vref 1)], [("c", HVal.vnum 1)]]⟩ 0 ["p.c"]).1.getObj 3
      = some [("%allot", HVal.vnum 1)]
    ∧ lookupObjField
        (prepareDataForEncryptionHeap
          ⟨[[("p", HVal.vref 1)], [("c", HVal.vnum 1)]]⟩ 0 ["p.c"]).1 0 "p"
      = some (HVal.vref 1)
    ∧ lookupObjField
        (prepareDataForEncryptionHeap
          ⟨[[("p", HVal.vref 1)], [("c", HVal.vnum 1)]]⟩ 0 ["p.c"]).1
        (prepareDataForEncryptionHeap
          ⟨[[("p", HVal.vref 1)], [("c", HVal.vnum 1)]]⟩ 0 ["p.c"]).2 "p"
      = some (HVal.vref 1)
    ∧ some (HVal.vnum 1) ≠ some (HVal.vref 3) := by
  refine ⟨rfl, rfl, rfl, rfl, rfl, rfl, ?_⟩
  simp

/-- C2 (amended): for lists of top-level (dot-free) field paths — the only
paths this repository ever passes — the marker has no side effect: every
pre-existing heap object, the input record included, is unchanged; the
returned record is a fresh object, reference-distinct from the input; and
its unlisted fields hold the very same values (shared references, shallow
copy) as the input.  For nested paths the input's parent object is mutated
in place, as the counterexample shows. -/
theorem C2_frame_amended (h : Heap) (dataAddr : Nat) (fields : List String)
    (hvalid : dataAddr < h.objs.length)
    (htop : ∀ f ∈ fields, splitDot f = [f]) :
    (prepareDataForEncryptionHeap h dataAddr fields).2 = h.objs.length
    ∧ (prepareDataForEncryptionHeap h dataAddr fields).2 ≠ dataAddr
    ∧ (∀ a, a < h.objs.length →
        (prepareDataForEncryptionHeap h dataAddr fields).1.getObj a = h.getObj a)
    ∧ (∀ k, k ∉ fields →
        lookupObjField (prepareDataForEncryptionHeap h dataAddr fields).1
          (prepareDataForEncryptionHeap h dataAddr fields).2 k
          = lookupObjField h dataAddr k) := by
  have hfold := foldHeap_spec fields (h.alloc ((h.getObj dataAddr).getD [])).1
    h.objs.length htop
  obtain ⟨o, ho⟩ : ∃ o, h.getObj dataAddr = some o := by
    unfold Heap.getObj
    exact ⟨h.objs[dataAddr], List.getElem?_eq_getElem hvalid⟩
  have h1len : (h.alloc ((h.getObj dataAddr).getD [])).1.objs.length
      = h.objs.length + 1 := length_alloc h _
  refine ⟨rfl, (Nat.ne_of_lt hvalid).symm, ?_, ?_⟩
  · intro a ha
    calc (prepareDataForEncryptionHeap h dataAddr fields).1.getObj a
        = (h.alloc ((h.getObj dataAddr).getD [])).1.getObj a :=
          hfold.1 a (by rw [h1len]; exact Nat.lt_succ_of_lt ha) (Nat.ne_of_lt ha)
      _ = h.getObj a := getObj_alloc h _ a ha
  · intro k hk
    have hres : (h.alloc ((h.getObj dataAddr).getD [])).1.getObj h.objs.length
        = some ((h.getObj dataAddr).getD []) := by
      unfold Heap.alloc Heap.getObj
      exact List.getElem?_concat_length _ _
    calc lookupObjField (prepareDataForEncryptionHeap h dataAddr fields).1
          (prepareDataForEncryptionHeap h dataAddr fields).2 k
        = lookupObjField (h.alloc ((h.getObj dataAddr).getD [])).1
            h.objs.length k := hfold.2.2 k hk
      _ = lookupR ((h.getObj dataAddr).getD []) k := by
          unfold lookupObjField
          rw [hres]
          rfl
      _ = lookupObjField h dataAddr k := by
          unfold lookupObjField
          rw [ho]
          simp

/-- C2 (amended) at a concrete input: wrapping the top-level field "x" leaves
the input record object untouched, returns a fresh record, and shares the
unlisted field "y" by reference. -/
theorem C2_frame_amended_witness :
    (prepareDataForEncryptionHeap
      ⟨[[("x", HVal.vnum 5), ("y", HVal.vstr "s")]]⟩ 0 ["x"]).2 = 1
    ∧ (prepareDataForEncryptionHeap
        ⟨[[("x", HVal.vnum 5), ("y", HVal.vstr "s")]]⟩ 0 ["x"]).1.getObj 0
      = some [("x", HVal.vnum 5), ("y", HVal.vstr "s")]
    ∧ lookupObjField (prepareDataForEncryptionHeap
        ⟨[[("x", HVal.vnum 5), ("y", HVal.vstr "s")]]⟩ 0 ["x"]).1
        (prepareDataForEncryptionHeap
          ⟨[[("x", HVal.vnum 5), ("y", HVal.vstr "s")]]⟩ 0 ["x"]).2 "y"
      = some (HVal.vstr "s") := by
  have h := C2_frame_amended ⟨[[("x", HVal.vnum 5), ("y", HVal.vstr "s")]]⟩ 0 ["x"]
    (by decide) (by decide)
  refine ⟨h.1, ?_, ?_⟩
  · rw [h.2.2.1 0 (by decide)]
    rfl
  · rw [h.2.2.2 "y" (by decide)]
    rfl

theorem lookupR_append_not_mem {α : Type} (l : List (String × α)) (k key : String)
    (v : α) (h : key ≠ k) : lookupR (l ++ [(k, v)]) key = lookupR l key := by
  induction l with
  | nil => simp [lookupR, h]
  | cons hd tl ih =>
    obtain ⟨k1, v1⟩ := hd
    by_cases h1 : key = k1
    · simp [lookupR, h1]
    · simp [lookupR, h1, ih]

theorem parseStrip_keys (schema : ZodObject) (input : JRecord) :
    ∀ r, parseStrip schema input = some r → ∀ e ∈ r, ∃ f ∈ schema, f.1 = e.1 := by
  induction schema generalizing input with
  | nil =>
    intro r hr e he
    simp only [parseStrip, Option.some.injEq] at hr
    subst hr
    cases he
  | cons hd rest ih =>
    obtain ⟨k, fld⟩ := hd
    intro r hr e he
    simp only [parseStrip] at hr
    cases hlk : lookupR input k with
    | none =>
      rw [hlk] at hr
      dsimp only at hr
      by_cases hopt : fld.optional = true
      · rw [if_pos hopt] at hr
        obtain ⟨f, hf, he2⟩ := ih input r hr e he
        exact ⟨f, List.mem_cons_of_mem _ hf, he2⟩
      · rw [if_neg hopt] at hr
        cases hr
    | some v =>
      rw [hlk] at hr
      dsimp only at hr
      cases hp : fld.parse v with
      | none => rw [hp] at hr; dsimp only at hr; cases hr
      | some v2 =>
        rw [hp] at hr
        dsimp only at hr
        cases hrest : parseStrip rest input with
        | none => rw [hrest] at hr; cases hr
        | some r0 =>
          rw [hrest] at hr
          have hr2 : (k, v2) :: r0 = r := by simpa using hr
          subst hr2
          rcases List.mem_cons.mp he with he | he
          · exact ⟨(k, fld), List.mem_cons_self _ _, by rw [he]⟩
          · obtain ⟨f, hf, he2⟩ := ih input r0 hrest e he
            exact ⟨f, List.mem_cons_of_mem _ hf, he2⟩

theorem parseStrip_ignores_appended (schema : ZodObject) (input : JRecord)
    (k : String) (v : JVal) (hk : ∀ f ∈ schema, f.1 ≠ k) :
    parseStrip schema (input ++ [(k, v)]) = parseStrip schema input := by
  induction schema with
  | nil => rfl
  | cons hd rest ih =>
    obtain ⟨k1, fld⟩ := hd
    have hk1 : k1 ≠ k := hk (k1, fld) (List.mem_cons_self _ _)
    have ihr := ih (fun f hf => hk f (List.mem_cons_of_mem _ hf))
    simp only [parseStrip]
    rw [lookupR_append_not_mem input k k1 v hk1, ihr]

/-- C5: the claim fails on the code.  Every schema in `schemas.ts` is built
with `.strip()`, so an input carrying an unrecognized extra field is NOT
rejected: validation succeeds and the extra field is silently dropped from
the parsed result. -/
theorem C5_counterexample :
    parseStrip CreateServiceListingSchema
        [("provider_name", JVal.str "Alice"),
         ("provider_id", JVal.str "prov-1"),
         ("service_type", JVal.str "tutoring"),
         ("service_details", JVal.obj
           [("title", JVal.str "Math"),
            ("description", JVal.str "Algebra"),
            ("duration_minutes", JVal.num 60)]),
         ("availability", JVal.obj
           [("date", JVal.str "2024-01-01"),
            ("start_time", JVal.str "10:00"),
            ("end_time", JVal.str "11:00"),
            ("timezone", JVal.str "UTC")]),
         ("price", JVal.obj
           [("amount", JVal.num 20),
            ("currency", JVal.str "USD")]),
         ("contact_info", JVal.str "alice@example.com"),
         ("unexpected_field", JVal.str "extra")]
      = some
        [("provider_name", JVal.str "Alice"),
         ("provider_id", JVal.str "prov-1"),
         ("service_type", JVal.str "tutoring"),
         ("service_details", JVal.obj
           [("title", JVal.str "Math"),
            ("description", JVal.str "Algebra"),
            ("duration_minutes", JVal.num 60)]),
         ("availability", JVal.obj
           [("date", JVal.str "2024-01-01"),
            ("start_time", JVal.str "10:00"),
            ("end_time", JVal.str "11:00"),
            ("timezone", JVal.str "UTC")]),
         ("price", JVal.obj
           [("amount", JVal.num 20),
            ("currency", JVal.str "USD")]),
         ("contact_info", JVal.str "alice@example.com")]
    ∧ lookupR
        [("provider_name", JVal.str "Alice"),
         ("provider_id", JVal.str "prov-1"),
         ("service_type", JVal.str "tutoring"),
         ("service_details", JVal.obj
           [("title", JVal.str "Math"),
            ("description", JVal.str "Algebra"),
            ("duration_minutes", JVal.num 60)]),
         ("availability", JVal.obj
           [("date", JVal.str "2024-01-01"),
            ("start_time", JVal.str "10:00"),
            ("end_time", JVal.str "11:00"),
            ("timezone", JVal.str "UTC")]),
         ("price", JVal.obj
           [("amount", JVal.num 20),
            ("currency", JVal.str "USD")]),
         ("contact_info", JVal.str "alice@example.com")]
        "unexpected_field" = none := ⟨rfl, rfl⟩

/-- C5 (amended): `.strip()` validation does not reject unrecognized extra
fields — appending an unknown field never changes the parse result, and a
successful parse contains only keys declared in the schema (the extra fields
are silently dropped). -/
theorem C5_strip_amended (schema : ZodObject) (input : JRecord) (k : String)
    (v : JVal) (hk : ∀ f ∈ schema, f.1 ≠ k) :
    parseStrip schema (input ++ [(k, v)]) = parseStrip schema input
    ∧ (∀ r, parseStrip schema input = some r → ∀ e ∈ r, ∃ f ∈ schema, f.1 = e.1) :=
  ⟨parseStrip_ignores_appended schema input k v hk, parseStrip_keys schema input⟩

/-- C5 (amended) at a concrete input: adding an unknown field to a
get-booking-details input leaves the parse result unchanged. -/
theorem C5_strip_amended_witness :
    parseStrip GetBookingDetailsSchema
        [("booking_id", JVal.str "b-1"), ("extra", JVal.str "x")]
      = parseStrip GetBookingDetailsSchema [("booking_id", JVal.str "b-1")] := by
  have h := C5_strip_amended GetBookingDetailsSchema [("booking_id", JVal.str "b-1")]
    "extra" (JVal.str "x") ?_
  · exact h.1
  · intro f hf
    simp only [GetBookingDetailsSchema, List.mem_singleton] at hf
    subst hf
    decide

theorem byteHex_length (b : Nat) : (byteHex b).length = 2 := rfl

theorem uuidv4_length (b : Fin 16 → Nat) : (uuidv4 b).length = 36 := by
  have hd : ("-" : String).length = 1 := rfl
  simp [uuidv4, String.length_append, byteHex_length, hd]

theorem uuidv4_ne_empty (b : Fin 16 → Nat) : uuidv4 b ≠ "" := by
  intro h
  have hl := uuidv4_length b
  rw [h] at hl
  simp at hl

/-- C3: each record builder, on validated input whose confidential string
fields are genuine (non-empty, hence truthy), produces a record with the
freshly generated non-empty identifier, the kind's default status fields,
the fixed confidential fields wrapped in the encryption marker, and the
optional confidential fields (booking meeting_link, feedback agent_notes)
wrapped when supplied (with a truthy value) and absent when not supplied. -/
theorem C3_record_builder_defaults
    (a : ServiceListingArgs) (b : BookingArgs) (fb : FeedbackArgs)
    (bytes : Fin 16 → Nat) (now : String)
    (hpn : a.provider_name ≠ "") (hpi : a.provider_id ≠ "")
    (hci : a.contact_info ≠ "")
    (hcid : b.customer_id ≠ "") (hcn : b.customer_name ≠ "") :
    uuidv4 bytes ≠ ""
    ∧ lookupR (createServiceListingData a (uuidv4 bytes)) "_id"
        = some (.str (uuidv4 bytes))
    ∧ lookupR (createServiceListingData a (uuidv4 bytes)) "status"
        = some (.str "available")
    ∧ lookupR (createServiceListingData a (uuidv4 bytes)) "provider_name"
        = some (wrapAllot (.str a.provider_name))
    ∧ lookupR (createServiceListingData a (uuidv4 bytes)) "provider_id"
        = some (wrapAllot (.str a.provider_id))
    ∧ lookupR (createServiceListingData a (uuidv4 bytes)) "contact_info"
        = some (wrapAllot (.str a.contact_info))
    ∧ lookupR (createBookingData b (uuidv4 bytes) now) "_id"
        = some (.str (uuidv4 bytes))
    ∧ lookupR (createBookingData b (uuidv4 bytes) now) "payment_status"
        = some (.str "pending")
    ∧ lookupR (createBookingData b (uuidv4 bytes) now) "service_status"
        = some (.str "scheduled")
    ∧ lookupR (createBookingData b (uuidv4 bytes) now) "customer_id"
        = some (wrapAllot (.str b.customer_id))
    ∧ lookupR (createBookingData b (uuidv4 bytes) now) "customer_name"
        = some (wrapAllot (.str b.customer_name))
    ∧ (b.meeting_link = none
        → lookupR (createBookingData b (uuidv4 bytes) now) "meeting_link" = none)
    ∧ (∀ s, b.meeting_link = some s → s ≠ ""
        → lookupR (createBookingData b (uuidv4 bytes) now) "meeting_link"
          = some (wrapAllot (.str s)))
    ∧ lookupR (createFeedbackData fb (uuidv4 bytes)) "_id"
        = some (.str (uuidv4 bytes))
    ∧ lookupR (createFeedbackData fb (uuidv4 bytes)) "resolution_status"
        = some (.str "pending")
    ∧ (fb.agent_notes = none
        → lookupR (createFeedbackData fb (uuidv4 bytes)) "agent_notes" = none)
    ∧ (∀ s, fb.agent_notes = some s → s ≠ ""
        → lookupR (createFeedbackData fb (uuidv4 bytes)) "agent_notes"
          = some (wrapAllot (.str s))) := by
  have s1 : splitDot "provider_name" = ["provider_name"] := rfl
  have s2 : splitDot "provider_id" = ["provider_id"] := rfl
  have s3 : splitDot "contact_info" = ["contact_info"] := rfl
  have s4 : splitDot "customer_id" = ["customer_id"] := rfl
  have s5 : splitDot "customer_name" = ["customer_name"] := rfl
  have s6 : splitDot "meeting_link" = ["meeting_link"] := rfl
  have s7 : splitDot "agent_notes" = ["agent_notes"] := rfl
  refine ⟨uuidv4_ne_empty bytes, ?_, ?_, ?_, ?_, ?_, ?_, ?_, ?_, ?_, ?_, ?_, ?_,
    ?_, ?_, ?_, ?_⟩
  · simp [createServiceListingData, prepareDataForEncryption, applyField,
      ServiceListingArgs.toRecord, setKey, lookupR, truthy, wrapAllot,
      s1, s2, s3, hpn, hpi, hci]
  · simp [createServiceListingData, prepareDataForEncryption, applyField,
      ServiceListingArgs.toRecord, setKey, lookupR, truthy, wrapAllot,
      s1, s2, s3, hpn, hpi, hci]
  · simp [createServiceListingData, prepareDataForEncryption, applyField,
      ServiceListingArgs.toRecord, setKey, lookupR, truthy, wrapAllot,
      s1, s2, s3, hpn, hpi, hci]
  · simp [createServiceListingData, prepareDataForEncryption, applyField,
      ServiceListingArgs.toRecord, setKey, lookupR, truthy, wrapAllot,
      s1, s2, s3, hpn, hpi, hci]
  · simp [createServiceListingData, prepareDataForEncryption, applyField,
      ServiceListingArgs.toRecord, setKey, lookupR, truthy, wrapAllot,
      s1, s2, s3, hpn, hpi, hci]
  · rcases hml : b.meeting_link with _ | s
    · simp [createBookingData, prepareDataForEncryption, applyField,
        BookingArgs.toRecord, setKey, lookupR, truthy, wrapAllot,
        s4, s5, s6, hcid, hcn, hml]
    · by_cases hs : s = "" <;>
        simp [createBookingData, prepareDataForEncryption, applyField,
          BookingArgs.toRecord, setKey, lookupR, truthy, wrapAllot,
          s4, s5, s6, hcid, hcn, hml, hs]
  · rcases hml : b.meeting_link with _ | s
    · simp [createBookingData, prepareDataForEncryption, applyField,
        BookingArgs.toRecord, setKey, lookupR, truthy, wrapAllot,
        s4, s5, s6, hcid, hcn, hml]
    · by_cases hs : s = "" <;>
        simp [createBookingData, prepareDataForEncryption, applyField,
          BookingArgs.toRecord, setKey, lookupR, truthy, wrapAllot,
          s4, s5, s6, hcid, hcn, hml, hs]
  · rcases hml : b.meeting_link with _ | s
    · simp [createBookingData, prepareDataForEncryption, applyField,
        BookingArgs.toRecord, setKey, lookupR, truthy, wrapAllot,
        s4, s5, s6, hcid, hcn, hml]
    · by_cases hs : s = "" <;>
        simp [createBookingData, prepareDataForEncryption, applyField,
          BookingArgs.toRecord, setKey, lookupR, truthy, wrapAllot,
          s4, s5, s6, hcid, hcn, hml, hs]
  · rcases hml : b.meeting_link with _ | s
    · simp [createBookingData, prepareDataForEncryption, applyField,
        BookingArgs.toRecord, setKey, lookupR, truthy, wrapAllot,
        s4, s5, s6, hcid, hcn, hml]
    · by_cases hs : s = "" <;>
        simp [createBookingData, prepareDataForEncryption, applyField,
          BookingArgs.toRecord, setKey, lookupR, truthy, wrapAllot,
          s4, s5, s6, hcid, hcn, hml, hs]
  · rcases hml : b.meeting_link with _ | s
    · simp [createBookingData, prepareDataForEncryption, applyField,
        BookingArgs.toRecord, setKey, lookupR, truthy, wrapAllot,
        s4, s5, s6, hcid, hcn, hml]
    · by_cases hs : s = "" <;>
        simp [createBookingData, prepareDataForEncryption, applyField,
          BookingArgs.toRecord, setKey, lookupR, truthy, wrapAllot,
          s4, s5, s6, hcid, hcn, hml, hs]
  · intro hml
    simp [createBookingData, prepareDataForEncryption, applyField,
      BookingArgs.toRecord, setKey, lookupR, truthy, wrapAllot,
      s4, s5, s6, hcid, hcn, hml]
  · intro s hml hs
    simp [createBookingData, prepareDataForEncryption, applyField,
      BookingArgs.toRecord, setKey, lookupR, truthy, wrapAllot,
      s4, s5, s6, hcid, hcn, hml, hs]
  · rcases hpr : fb.provider_rating with _ | pr <;>
      rcases hcr : fb.customer_rating with _ | cr <;>
      rcases hpf : fb.provider_feedback with _ | pf <;>
      rcases hcf : fb.customer_feedback with _ | cf <;>
      rcases han : fb.agent_notes with _ | an <;>
      try simp [createFeedbackData, prepareDataForEncryption, applyField,
        FeedbackArgs.toRecord, setKey, lookupR, truthy, wrapAllot,
        s7, hpr, hcr, hpf, hcf, han]
    all_goals
      by_cases ha : an = "" <;>
        simp [createFeedbackData, prepareDataForEncryption, applyField,
          FeedbackArgs.toRecord, setKey, lookupR, truthy, wrapAllot,
          s7, hpr, hcr, hpf, hcf, han, ha]
  · rcases hpr : fb.provider_rating with _ | pr <;>
      rcases hcr : fb.customer_rating with _ | cr <;>
      rcases hpf : fb.provider_feedback with _ | pf <;>
      rcases hcf : fb.customer_feedback with _ | cf <;>
      rcases han : fb.agent_notes with _ | an <;>
      try simp [createFeedbackData, prepareDataForEncryption, applyField,
        FeedbackArgs.toRecord, setKey, lookupR, truthy, wrapAllot,
        s7, hpr, hcr, hpf, hcf, han]
    all_goals
      by_cases ha : an = "" <;>
        simp [createFeedbackData, prepareDataForEncryption, applyField,
          FeedbackArgs.toRecord, setKey, lookupR, truthy, wrapAllot,
          s7, hpr, hcr, hpf, hcf, han, ha]
  · intro han
    rcases hpr : fb.provider_rating with _ | pr <;>
      rcases hcr : fb.customer_rating with _ | cr <;>
      rcases hpf : fb.provider_feedback with _ | pf <;>
      rcases hcf : fb.customer_feedback with _ | cf <;>
      simp [createFeedbackData, prepareDataForEncryption, applyField,
        FeedbackArgs.toRecord, setKey, lookupR, truthy, wrapAllot,
        s7, hpr, hcr, hpf, hcf, han]
  · intro s han hs
    rcases hpr : fb.provider_rating with _ | pr <;>
      rcases hcr : fb.customer_rating with _ | cr <;>
      rcases hpf : fb.provider_feedback with _ | pf <;>
      rcases hcf : fb.customer_feedback with _ | cf <;>
      simp [createFeedbackData, prepareDataForEncryption, applyField,
        FeedbackArgs.toRecord, setKey, lookupR, truthy, wrapAllot,
        s7, hpr, hcr, hpf, hcf, han, hs]

/-- C3 at a concrete minimal input for each kind: default status present,
supplied optional meeting link wrapped, omitted agent notes absent. -/
theorem C3_record_builder_defaults_witness :
    uuidv4 (fun _ => 7) ≠ ""
    ∧ lookupR (createServiceListingData
        ⟨"Alice", "prov-1", "tutoring", ⟨"Math", "Algebra", 60⟩,
         ⟨"2024-01-01", "10:00", "11:00", "UTC"⟩, ⟨20, "USD"⟩, "alice@x.com"⟩
        (uuidv4 (fun _ => 7))) "status" = some (.str "available")
    ∧ lookupR (createBookingData ⟨"svc-1", "cust-1", "Carol", some "https://x"⟩
        (uuidv4 (fun _ => 7)) "2024-01-02T00:00:00Z") "meeting_link"
      = some (wrapAllot (.str "https://x"))
    ∧ lookupR (createFeedbackData
        ⟨"book-1", some 4, some 5, some "good", some "great", none⟩
        (uuidv4 (fun _ => 7))) "agent_notes" = none := by
  obtain ⟨c1, c2, c3, c4, c5, c6, c7, c8, c9, c10, c11, c12, c13, c14, c15,
    c16, c17⟩ := C3_record_builder_defaults
    ⟨"Alice", "prov-1", "tutoring", ⟨"Math", "Algebra", 60⟩,
     ⟨"2024-01-01", "10:00", "11:00", "UTC"⟩, ⟨20, "USD"⟩, "alice@x.com"⟩
    ⟨"svc-1", "cust-1", "Carol", some "https://x"⟩
    ⟨"book-1", some 4, some 5, some "good", some "great", none⟩
    (fun _ => 7) "2024-01-02T00:00:00Z"
    (by decide) (by decide) (by decide) (by decide) (by decide)
  exact ⟨c1, c3, c13 "https://x" rfl (by decide), c16 rfl⟩

theorem err_init_msg (m : String) :
    "Error: " ++ ("Failed to initialize SecretVault: " ++ m)
      = "Error: Failed to initialize SecretVault: " ++ m := by
  rw [← String.append_assoc]
  rfl

theorem initSecretVault_ok (env : Env) (s : ProviderState)
    (hinit : env.initResult s.nodes s.credentials = none) :
    ∃ s1, initSecretVault env s = (.ok (), s1)
      ∧ s1.schemaIds = s.schemaIds
      ∧ s1.nodes = s.nodes ∧ s1.credentials = s.credentials := by
  unfold initSecretVault
  by_cases h : s.initialized && s.hasWrapper
  · rw [if_pos h]
    exact ⟨s, rfl, rfl, rfl, rfl⟩
  · rw [if_neg h, hinit]
    exact ⟨_, rfl, rfl, rfl, rfl⟩

theorem initSecretVault_fail (env : Env) (s : ProviderState) (m : String)
    (hni : s.initialized = false)
    (hf : env.initResult s.nodes s.credentials = some m) :
    initSecretVault env s
      = (.error (.sv ("Failed to initialize SecretVault: " ++ m)),
         { s with hasWrapper := true, initialized := false }) := by
  unfold initSecretVault
  rw [if_neg (by simp [hni]), hf]

theorem checkSchemaId_ok (k : SchemaKind) (ids : SchemaIds)
    (h : ids.get k ≠ "") : checkSchemaId k ids = .ok (ids.get k) := by
  unfold checkSchemaId
  rw [if_neg h]

theorem checkSchemaId_missing (k : SchemaKind) (ids : SchemaIds)
    (h : ids.get k = "") :
    checkSchemaId k ids
      = .error (.sv ("Schema ID for " ++ schemaKindName k
          ++ " is missing. Please create the schema first.")) := by
  unfold checkSchemaId
  rw [h]
  rfl

/-- C6: the claim fails on the code.  The mock payload of
`getBookingDetails` sets `_id: args.booking_id`, so the returned string DOES
depend on the identifier supplied: two different booking identifiers yield
two different responses. -/
theorem C6_counterexample :
    (getBookingDetails
        ⟨fun _ _ => none, fun _ _ => Except.error "e", fun _ => Except.error "e",
         fun _ => Except.error "e"⟩
        ⟨true, true, [], ⟨"k", "o"⟩, ⟨"", "sch-b", ""⟩⟩ ⟨"b1"⟩).1
    ≠ (getBookingDetails
        ⟨fun _ _ => none, fun _ _ => Except.error "e", fun _ => Except.error "e",
         fun _ => Except.error "e"⟩
        ⟨true, true, [], ⟨"k", "o"⟩, ⟨"", "sch-b", ""⟩⟩ ⟨"b2"⟩).1 := by
  decide

/-- C6 (amended): with initialization succeeding and the booking schema
identifier configured, `getBookingDetails` returns the serialized mock
payload whose every field except `_id` is fixed; `_id` echoes the supplied
identifier, which is the only way the response depends on it. -/
theorem C6_booking_details_amended (env : Env) (s : ProviderState) (id : String)
    (hinit : env.initResult s.nodes s.credentials = none)
    (hschema : s.schemaIds.booking ≠ "") :
    (getBookingDetails env s ⟨id⟩).1
      = "Booking details:\n" ++ jsonFlatObj "" (mockBooking id)
    ∧ (mockBooking id).head? = some ("_id", .s id)
    ∧ (∀ i j, (mockBooking i).tail = (mockBooking j).tail) := by
  refine ⟨?_, rfl, fun i j => rfl⟩
  obtain ⟨s1, hs1, hids, _, _⟩ := initSecretVault_ok env s hinit
  have hchk : checkSchemaId .BOOKING s1.schemaIds = .ok (s1.schemaIds.get .BOOKING) :=
    checkSchemaId_ok _ _ (by rw [hids]; exact hschema)
  simp only [getBookingDetails, getBookingBody, hs1, hchk, runAction]

/-- C6 (amended) at a concrete invocation. -/
theorem C6_booking_details_amended_witness :
    (getBookingDetails
        ⟨fun _ _ => none, fun _ _ => Except.error "e", fun _ => Except.error "e",
         fun _ => Except.error "e"⟩
        ⟨true, true, [], ⟨"k", "o"⟩, ⟨"", "sch-b", ""⟩⟩ ⟨"b-42"⟩).1
      = "Booking details:\n" ++ jsonFlatObj "" (mockBooking "b-42") := by
  have h := C6_booking_details_amended
    ⟨fun _ _ => none, fun _ _ => Except.error "e", fun _ => Except.error "e",
     fun _ => Except.error "e"⟩
    ⟨true, true, [], ⟨"k", "o"⟩, ⟨"", "sch-b", ""⟩⟩ "b-42" rfl (by decide)
  exact h.1

/-- C9: reconfiguration is not atomic on error.  When connection
establishment fails inside `configureSecretVault`, the provider's node list
and credentials have already been replaced by the supplied values, only the
initialized flag is left false, and the next initialization attempt runs
with the new (still failing) parameters. -/
theorem C9_reconfigure_not_atomic (env : Env) (s : ProviderState)
    (args : ConfigureArgs) (m : String)
    (hfail : env.initResult args.nodes args.credentials = some m) :
    (configureSecretVault env s args).1
      = "Error: Failed to initialize SecretVault: " ++ m
    ∧ (configureSecretVault env s args).2.nodes = args.nodes
    ∧ (configureSecretVault env s args).2.credentials = args.credentials
    ∧ (configureSecretVault env s args).2.initialized = false
    ∧ (initSecretVault env (configureSecretVault env s args).2).1
      = .error (.sv ("Failed to initialize SecretVault: " ++ m)) := by
  have hstep := initSecretVault_fail env
    { s with
      nodes := args.nodes
      credentials := args.credentials
      initialized := false } m rfl hfail
  have hrun : configureSecretVault env s args
      = ("Error: Failed to initialize SecretVault: " ++ m,
         { s with
           nodes := args.nodes
           credentials := args.credentials
           initialized := false
           hasWrapper := true }) := by
    simp only [configureSecretVault, configureBody, hstep, runAction, err_init_msg]
  refine ⟨by rw [hrun], by rw [hrun], by rw [hrun], by rw [hrun], ?_⟩
  rw [hrun]
  have hstep2 := initSecretVault_fail env
    { s with
      nodes := args.nodes
      credentials := args.credentials
      initialized := false
      hasWrapper := true } m rfl hfail
  rw [hstep2]

/-- C9 at a concrete invocation: the stored configuration after the failed
reconfigure holds the new node list. -/
theorem C9_reconfigure_not_atomic_witness :
    (configureSecretVault
        ⟨fun _ _ => some "connection refused", fun _ _ => Except.error "e",
         fun _ => Except.error "e", fun _ => Except.error "e"⟩
        ⟨true, true, [⟨"https://old", "did:old"⟩], ⟨"oldk", "oldo"⟩,
         ⟨"a", "b", "c"⟩⟩
        ⟨[⟨"https://new", "did:new"⟩], ⟨"newk", "newo"⟩⟩).1
      = "Error: Failed to initialize SecretVault: " ++ "connection refused"
    ∧ (configureSecretVault
        ⟨fun _ _ => some "connection refused", fun _ _ => Except.error "e",
         fun _ => Except.error "e", fun _ => Except.error "e"⟩
        ⟨true, true, [⟨"https://old", "did:old"⟩], ⟨"oldk", "oldo"⟩,
         ⟨"a", "b", "c"⟩⟩
        ⟨[⟨"https://new", "did:new"⟩], ⟨"newk", "newo"⟩⟩).2.nodes
      = [⟨"https://new", "did:new"⟩] := by
  have h := C9_reconfigure_not_atomic
    ⟨fun _ _ => some "connection refused", fun _ _ => Except.error "e",
     fun _ => Except.error "e", fun _ => Except.error "e"⟩
    ⟨true, true, [⟨"https://old", "did:old"⟩], ⟨"oldk", "oldo"⟩,
     ⟨"a", "b", "c"⟩⟩
    ⟨[⟨"https://new", "did:new"⟩], ⟨"newk", "newo"⟩⟩
    "connection refused" rfl
  exact ⟨h.1, h.2.1⟩

/-- C10: every schema-requiring action initializes the vault before checking
the schema identifier, so when the initialization attempt fails the action
returns the initialization-failure message regardless of the schema
identifiers — in particular even when they are all missing, the
missing-schema message is never produced. -/
theorem C10_init_before_schema_check (env : Env) (s : ProviderState)
    (la : ServiceListingArgs) (qa : QueryArgs) (ba : BookingArgs)
    (ua : UpdateBookingArgs) (ga : GetBookingArgs) (fa : FeedbackArgs)
    (ra : ResolveFeedbackArgs) (gfa : GetFeedbackArgs)
    (bytes : Fin 16 → Nat) (now : String) (m : String)
    (hni : s.initialized = false)
    (hfail : env.initResult s.nodes s.credentials = some m) :
    (createServiceListing env s la bytes).1
      = "Error: Failed to initialize SecretVault: " ++ m
    ∧ (queryServiceListings env s qa).1
      = "Error: Failed to initialize SecretVault: " ++ m
    ∧ (createBooking env s ba bytes now).1
      = "Error: Failed to initialize SecretVault: " ++ m
    ∧ (updateBookingStatus env s ua).1
      = "Error: Failed to initialize SecretVault: " ++ m
    ∧ (getBookingDetails env s ga).1
      = "Error: Failed to initialize SecretVault: " ++ m
    ∧ (createFeedback env s fa bytes).1
      = "Error: Failed to initialize SecretVault: " ++ m
    ∧ (resolveFeedback env s ra).1
      = "Error: Failed to initialize SecretVault: " ++ m
    ∧ (getFeedback env s gfa).1
      = "Error: Failed to initialize SecretVault: " ++ m := by
  have hstep := initSecretVault_fail env s m hni hfail
  refine ⟨?_, ?_, ?_, ?_, ?_, ?_, ?_, ?_⟩
  · simp only [createServiceListing, createListingBody, hstep, runAction, err_init_msg]
  · simp only [queryServiceListings, queryListingsBody, hstep, runAction, err_init_msg]
  · simp only [createBooking, createBookingBody, hstep, runAction, err_init_msg]
  · simp only [updateBookingStatus, updateBookingBody, hstep, runAction, err_init_msg]
  · simp only [getBookingDetails, getBookingBody, hstep, runAction, err_init_msg]
  · simp only [createFeedback, createFeedbackBody, hstep, runAction, err_init_msg]
  · simp only [resolveFeedback, resolveFeedbackBody, hstep, runAction, err_init_msg]
  · simp only [getFeedback, getFeedbackBody, hstep, runAction, err_init_msg]

/-- C10 at a concrete invocation: schema identifiers all missing, yet the
message is the initialization failure, not the missing-schema failure. -/
theorem C10_init_before_schema_check_witness :
    (getBookingDetails
        ⟨fun _ _ => some "down", fun _ _ => Except.error "e",
         fun _ => Except.error "e", fun _ => Except.error "e"⟩
        ⟨false, false, [], ⟨"k", "o"⟩, ⟨"", "", ""⟩⟩ ⟨"b1"⟩).1
      = "Error: Failed to initialize SecretVault: " ++ "down" := by
  have h := C10_init_before_schema_check
    ⟨fun _ _ => some "down", fun _ _ => Except.error "e",
     fun _ => Except.error "e", fun _ => Except.error "e"⟩
    ⟨false, false, [], ⟨"k", "o"⟩, ⟨"", "", ""⟩⟩
    ⟨"A", "p", "t", ⟨"T", "D", 60⟩, ⟨"d", "s", "e", "z"⟩, ⟨1, "USD"⟩, "c"⟩
    ⟨none, none, none⟩ ⟨"s", "c", "n", none⟩
    ⟨"b", "scheduled", none, none, none⟩ ⟨"b1"⟩
    ⟨"b", none, none, none, none, none⟩ ⟨"f", "resolved", none⟩ ⟨"f1"⟩
    (fun _ => 0) "now" "down" rfl rfl
  exact h.2.2.2.2.1

/-- C7: with initialization succeeding, every action that requires a remote
schema identifier fails with the missing-schema message naming the missing
kind when the corresponding `SCHEMA_IDS` entry is empty (for
`createBooking`, the BOOKING check runs first, then SERVICE_LISTING). -/
theorem C7_missing_schema_message (env : Env) (s : ProviderState)
    (la : ServiceListingArgs) (qa : QueryArgs) (ba : BookingArgs)
    (ua : UpdateBookingArgs) (ga : GetBookingArgs) (fa : FeedbackArgs)
    (ra : ResolveFeedbackArgs) (gfa : GetFeedbackArgs)
    (bytes : Fin 16 → Nat) (now : String)
    (hinit : env.initResult s.nodes s.credentials = none) :
    (s.schemaIds.serviceListing = "" →
      (createServiceListing env s la bytes).1
        = "Error: Schema ID for SERVICE_LISTING is missing. Please create the schema first."
      ∧ (queryServiceListings env s qa).1
        = "Error: Schema ID for SERVICE_LISTING is missing. Please create the schema first.")
    ∧ (s.schemaIds.booking = "" →
      (createBooking env s ba bytes now).1
        = "Error: Schema ID for BOOKING is missing. Please create the schema first."
      ∧ (updateBookingStatus env s ua).1
        = "Error: Schema ID for BOOKING is missing. Please create the schema first."
      ∧ (getBookingDetails env s ga).1
        = "Error: Schema ID for BOOKING is missing. Please create the schema first.")
    ∧ (s.schemaIds.booking ≠ "" → s.schemaIds.serviceListing = "" →
      (createBooking env s ba bytes now).1
        = "Error: Schema ID for SERVICE_LISTING is missing. Please create the schema first.")
    ∧ (s.schemaIds.feedback = "" →
      (createFeedback env s fa bytes).1
        = "Error: Schema ID for FEEDBACK is missing. Please create the schema first."
      ∧ (resolveFeedback env s ra).1
        = "Error: Schema ID for FEEDBACK is missing. Please create the schema first."
      ∧ (getFeedback env s gfa).1
        = "Error: Schema ID for FEEDBACK is missing. Please create the schema first.") := by
  obtain ⟨s1, hs1, hids, _, _⟩ := initSecretVault_ok env s hinit
  refine ⟨fun hsl => ⟨?_, ?_⟩, fun hbk => ⟨?_, ?_, ?_⟩, fun hbk hsl => ?_,
    fun hfb => ⟨?_, ?_, ?_⟩⟩
  · have hchk := checkSchemaId_missing .SERVICE_LISTING s1.schemaIds
      (by rw [hids]; exact hsl)
    simp only [createServiceListing, createListingBody, hs1, hchk, runAction]
    rfl
  · have hchk := checkSchemaId_missing .SERVICE_LISTING s1.schemaIds
      (by rw [hids]; exact hsl)
    simp only [queryServiceListings, queryListingsBody, hs1, hchk, runAction]
    rfl
  · have hchk := checkSchemaId_missing .BOOKING s1.schemaIds
      (by rw [hids]; exact hbk)
    simp only [createBooking, createBookingBody, hs1, hchk, runAction]
    rfl
  · have hchk := checkSchemaId_missing .BOOKING s1.schemaIds
      (by rw [hids]; exact hbk)
    simp only [updateBookingStatus, updateBookingBody, hs1, hchk, runAction]
    rfl
  · have hchk := checkSchemaId_missing .BOOKING s1.schemaIds
      (by rw [hids]; exact hbk)
    simp only [getBookingDetails, getBookingBody, hs1, hchk, runAction]
    rfl
  · have hchkB := checkSchemaId_ok .BOOKING s1.schemaIds (by rw [hids]; exact hbk)
    have hchkS := checkSchemaId_missing .SERVICE_LISTING s1.schemaIds
      (by rw [hids]; exact hsl)
    simp only [createBooking, createBookingBody, hs1, hchkB, hchkS, runAction]
    rfl
  · have hchk := checkSchemaId_missing .FEEDBACK s1.schemaIds
      (by rw [hids]; exact hfb)
    simp only [createFeedback, createFeedbackBody, hs1, hchk, runAction]
    rfl
  · have hchk := checkSchemaId_missing .FEEDBACK s1.schemaIds
      (by rw [hids]; exact hfb)
    simp only [resolveFeedback, resolveFeedbackBody, hs1, hchk, runAction]
    rfl
  · have hchk := checkSchemaId_missing .FEEDBACK s1.schemaIds
      (by rw [hids]; exact hfb)
    simp only [getFeedback, getFeedbackBody, hs1, hchk, runAction]
    rfl

/-- C7 at a concrete invocation: no schema identifiers configured, booking
details requested, missing-schema message naming BOOKING returned. -/
theorem C7_missing_schema_message_witness :
    (getBookingDetails
        ⟨fun _ _ => none, fun _ _ => Except.error "e", fun _ => Except.error "e",
         fun _ => Except.error "e"⟩
        ⟨false, false, [], ⟨"k", "o"⟩, ⟨"", "", ""⟩⟩ ⟨"b1"⟩).1
      = "Error: Schema ID for BOOKING is missing. Please create the schema first." := by
  have h := C7_missing_schema_message
    ⟨fun _ _ => none, fun _ _ => Except.error "e", fun _ => Except.error "e",
     fun _ => Except.error "e"⟩
    ⟨false, false, [], ⟨"k", "o"⟩, ⟨"", "", ""⟩⟩
    ⟨"A", "p", "t", ⟨"T", "D", 60⟩, ⟨"d", "s", "e", "z"⟩, ⟨1, "USD"⟩, "c"⟩
    ⟨none, none, none⟩ ⟨"s", "c", "n", none⟩
    ⟨"b", "scheduled", none, none, none⟩ ⟨"b1"⟩
    ⟨"b", none, none, none, none, none⟩ ⟨"f", "resolved", none⟩ ⟨"f1"⟩
    (fun _ => 0) "now" rfl
  exact (h.2.1 rfl).2.2

theorem runAction_sv (ctx : String) (r : Except VaultError String × ProviderState)
    (m : String) (s2 : ProviderState) (h : r = (.error (.sv m), s2)) :
    runAction ctx r = ("Error: " ++ m, s2) := by
  rw [h]
  rfl

theorem runAction_js (ctx : String) (r : Except VaultError String × ProviderState)
    (m : String) (s2 : ProviderState) (h : r = (.error (.js m), s2)) :
    runAction ctx r = (ctx ++ m, s2) := by
  rw [h]
  rfl

theorem runAction_ok (ctx : String) (r : Except VaultError String × ProviderState)
    (m : String) (s2 : ProviderState) (h : r = (.ok m, s2)) :
    runAction ctx r = (m, s2) := by
  rw [h]
  rfl

/-- C8 (amended): every action returns a string rather than letting a
failure escape; an invocation whose try block fails with one of the named
`NillionSecretVaultError` kinds returns "Error: " followed by its message;
an invocation failing with an unrecognized error returns the action's own
context text (such as "Error creating service listing: " or
"Configuration error: ") followed by the message — not necessarily an
"Error: description" string; and every succeeding invocation returns its
confirmation message with the relevant identifiers (`SuccessShape`). -/
theorem C8_action_boundary_amended (c : ActionCall) (env : Env) (s : ProviderState) :
    (∀ m s2, callBody c env s = (.error (.sv m), s2)
      → runCall c env s = ("Error: " ++ m, s2))
    ∧ (∀ m s2, callBody c env s = (.error (.js m), s2)
      → runCall c env s = (errContext c ++ m, s2))
    ∧ (∀ m s2, callBody c env s = (.ok m, s2)
      → runCall c env s = (m, s2) ∧ SuccessShape c m) := by
  cases c with
  | configure a =>
    refine ⟨fun m s2 h => runAction_sv _ _ m s2 h,
            fun m s2 h => runAction_js _ _ m s2 h,
            fun m s2 h => ⟨runAction_ok _ _ m s2 h, ?_⟩⟩
    simp only [callBody, configureBody] at h
    split at h
    · simp only [Prod.mk.injEq, Except.ok.injEq] at h
      exact h.1.symm
    · simp at h
  | createSchemaA a =>
    refine ⟨fun m s2 h => runAction_sv _ _ m s2 h,
            fun m s2 h => runAction_js _ _ m s2 h,
            fun m s2 h => ⟨runAction_ok _ _ m s2 h, ?_⟩⟩
    simp only [callBody, createSchemaBody] at h
    split at h
    · simp at h
    · split at h
      · simp at h
      · simp only [Prod.mk.injEq, Except.ok.injEq] at h
        exact ⟨_, _, h.1.symm⟩
  | createListingA a b =>
    refine ⟨fun m s2 h => runAction_sv _ _ m s2 h,
            fun m s2 h => runAction_js _ _ m s2 h,
            fun m s2 h => ⟨runAction_ok _ _ m s2 h, ?_⟩⟩
    simp only [callBody, createListingBody] at h
    split at h
    · simp at h
    · split at h
      · simp at h
      · split at h
        · simp at h
        · simp only [Prod.mk.injEq, Except.ok.injEq] at h
          exact ⟨_, h.1.symm⟩
  | queryListingsA a =>
    refine ⟨fun m s2 h => runAction_sv _ _ m s2 h,
            fun m s2 h => runAction_js _ _ m s2 h,
            fun m s2 h => ⟨runAction_ok _ _ m s2 h, ?_⟩⟩
    simp only [callBody, queryListingsBody] at h
    split at h
    · simp at h
    · split at h
      · simp at h
      · split at h
        · simp at h
        · split at h
          · simp only [Prod.mk.injEq, Except.ok.injEq] at h
            exact Or.inl h.1.symm
          · simp only [Prod.mk.injEq, Except.ok.injEq] at h
            exact Or.inr ⟨_, _, h.1.symm⟩
  | createBookingA a b n =>
    refine ⟨fun m s2 h => runAction_sv _ _ m s2 h,
            fun m s2 h => runAction_js _ _ m s2 h,
            fun m s2 h => ⟨runAction_ok _ _ m s2 h, ?_⟩⟩
    simp only [callBody, createBookingBody] at h
    split at h
    · simp at h
    · split at h
      · simp at h
      · split at h
        · simp at h
        · split at h
          · simp at h
          · simp only [Prod.mk.injEq, Except.ok.injEq] at h
            exact ⟨_, h.1.symm⟩
  | updateBookingA a =>
    refine ⟨fun m s2 h => runAction_sv _ _ m s2 h,
            fun m s2 h => runAction_js _ _ m s2 h,
            fun m s2 h => ⟨runAction_ok _ _ m s2 h, ?_⟩⟩
    simp only [callBody, updateBookingBody] at h
    split at h
    · simp at h
    · split at h
      · simp at h
      · simp only [Prod.mk.injEq, Except.ok.injEq] at h
        exact h.1.symm
  | getBookingA a =>
    refine ⟨fun m s2 h => runAction_sv _ _ m s2 h,
            fun m s2 h => runAction_js _ _ m s2 h,
            fun m s2 h => ⟨runAction_ok _ _ m s2 h, ?_⟩⟩
    simp only [callBody, getBookingBody] at h
    split at h
    · simp at h
    · split at h
      · simp at h
      · simp only [Prod.mk.injEq, Except.ok.injEq] at h
        exact h.1.symm
  | createFeedbackA a b =>
    refine ⟨fun m s2 h => runAction_sv _ _ m s2 h,
            fun m s2 h => runAction_js _ _ m s2 h,
            fun m s2 h => ⟨runAction_ok _ _ m s2 h, ?_⟩⟩
    simp only [callBody, createFeedbackBody] at h
    split at h
    · simp at h
    · split at h
      · simp at h
      · split at h
        · simp at h
        · simp only [Prod.mk.injEq, Except.ok.injEq] at h
          exact ⟨_, h.1.symm⟩
  | resolveFeedbackA a =>
    refine ⟨fun m s2 h => runAction_sv _ _ m s2 h,
            fun m s2 h => runAction_js _ _ m s2 h,
            fun m s2 h => ⟨runAction_ok _ _ m s2 h, ?_⟩⟩
    simp only [callBody, resolveFeedbackBody] at h
    split at h
    · simp at h
    · split at h
      · simp at h
      · simp only [Prod.mk.injEq, Except.ok.injEq] at h
        exact h.1.symm
  | getFeedbackA a =>
    refine ⟨fun m s2 h => runAction_sv _ _ m s2 h,
            fun m s2 h => runAction_js _ _ m s2 h,
            fun m s2 h => ⟨runAction_ok _ _ m s2 h, ?_⟩⟩
    simp only [callBody, getFeedbackBody] at h
    split at h
    · simp at h
    · split at h
      · simp at h
      · simp only [Prod.mk.injEq, Except.ok.injEq] at h
        exact h.1.symm
  | genUuid b =>
    refine ⟨fun m s2 h => ?_, fun m s2 h => ?_, fun m s2 h => ?_⟩
    · simp only [callBody, Prod.mk.injEq] at h
      exact absurd h.1 (by simp)
    · simp only [callBody, Prod.mk.injEq] at h
      exact absurd h.1 (by simp)
    · simp only [callBody, Prod.mk.injEq, Except.ok.injEq] at h
      obtain ⟨h1, h2⟩ := h
      subst h2
      subst h1
      exact ⟨rfl, rfl⟩

/-- C8: the claim fails on the code.  A `createServiceListing` invocation
whose external write fails with an unrecognized error returns
"Error creating service listing: boom" — a string, but not of the claimed
one-line "Error: description" form. -/
theorem C8_counterexample :
    createListingBody
        ⟨fun _ _ => none, fun _ _ => Except.error "e", fun _ => Except.error "boom",
         fun _ => Except.error "e"⟩
        ⟨true, true, [], ⟨"k", "o"⟩, ⟨"sch-s", "sch-b", "sch-f"⟩⟩
        ⟨"Alice", "prov-1", "tutoring", ⟨"Math", "Algebra", 60⟩,
         ⟨"2024-01-01", "10:00", "11:00", "UTC"⟩, ⟨20, "USD"⟩, "a@b.c"⟩
        (fun _ => 0)
      = (.error (.js "boom"),
         ⟨true, true, [], ⟨"k", "o"⟩, ⟨"sch-s", "sch-b", "sch-f"⟩⟩)
    ∧ (createServiceListing
        ⟨fun _ _ => none, fun _ _ => Except.error "e", fun _ => Except.error "boom",
         fun _ => Except.error "e"⟩
        ⟨true, true, [], ⟨"k", "o"⟩, ⟨"sch-s", "sch-b", "sch-f"⟩⟩
        ⟨"Alice", "prov-1", "tutoring", ⟨"Math", "Algebra", 60⟩,
         ⟨"2024-01-01", "10:00", "11:00", "UTC"⟩, ⟨20, "USD"⟩, "a@b.c"⟩
        (fun _ => 0)).1
      = "Error creating service listing: boom"
    ∧ strStarts "Error: " "Error creating service listing: boom" = false := by
  refine ⟨rfl, rfl, by decide⟩

/-- C8 (amended) at a concrete invocation: the same failing write yields the
action-specific context text followed by the message. -/
theorem C8_action_boundary_amended_witness :
    runCall (.createListingA
        ⟨"Alice", "prov-1", "tutoring", ⟨"Math", "Algebra", 60⟩,
         ⟨"2024-01-01", "10:00", "11:00", "UTC"⟩, ⟨20, "USD"⟩, "a@b.c"⟩
        (fun _ => 0))
      ⟨fun _ _ => none, fun _ _ => Except.error "e", fun _ => Except.error "boom",
       fun _ => Except.error "e"⟩
      ⟨true, true, [], ⟨"k", "o"⟩, ⟨"sch-s", "sch-b", "sch-f"⟩⟩
      = ("Error creating service listing: " ++ "boom",
         ⟨true, true, [], ⟨"k", "o"⟩, ⟨"sch-s", "sch-b", "sch-f"⟩⟩) := by
  have h := C8_action_boundary_amended (.createListingA
      ⟨"Alice", "prov-1", "tutoring", ⟨"Math", "Algebra", 60⟩,
       ⟨"2024-01-01", "10:00", "11:00", "UTC"⟩, ⟨20, "USD"⟩, "a@b.c"⟩
      (fun _ => 0))
    ⟨fun _ _ => none, fun _ _ => Except.error "e", fun _ => Except.error "boom",
     fun _ => Except.error "e"⟩
    ⟨true, true, [], ⟨"k", "o"⟩, ⟨"sch-s", "sch-b", "sch-f"⟩⟩
  exact h.2.1 "boom" ⟨true, true, [], ⟨"k", "o"⟩, ⟨"sch-s", "sch-b", "sch-f"⟩⟩ rfl
